import Mathlib

/-!
Shallow embedding of the accounting and cash-reconciliation engine of the
POS back office (chart of accounts, journal engine, transaction posting
rules, cash register session manager), translated from the JavaScript
source files:

  backend/src/modules/chart-of-accounts/models/accountModel.js
  backend/src/modules/chart-of-accounts/services/chartOfAccountsService.js
  backend/src/modules/journal/models/journalModel.js
  backend/src/modules/journal/services/journalService.js
  backend/src/modules/cash-register (cash register service)
  backend/src/modules/sales (sale service and model)
  backend/src/modules/returns (return service and model)

Database rows become lists of records, the database clock becomes an
explicit `now : Nat` counter carried in the state, Prisma errors become
`Except String`, and JavaScript numbers used as money become `Int`
(every amount the engine handles is produced by sums and differences, so
no floating point behaviour is relevant to the properties studied here).
-/

/-- Account type enumeration, from the Prisma `type` field used throughout
the chart-of-accounts code: ASSET, LIABILITY, EQUITY, REVENUE, EXPENSE. -/
inductive AccountType where
  | ASSET
  | LIABILITY
  | EQUITY
  | REVENUE
  | EXPENSE
deriving Repr, DecidableEq

/-- A row of the `account` table. -/
structure Account where
  id : Nat
  code : String
  name : String
  type : AccountType
  parentId : Option Nat
  isActive : Bool
deriving Repr, DecidableEq

/-- A row of the `journalEntry` table.  `date` is a timestamp. -/
structure JournalEntry where
  id : Nat
  date : Nat
  description : String
  debitAccountId : Nat
  creditAccountId : Nat
  amount : Int
  userId : Nat
deriving Repr, DecidableEq

/-- The state owned by the chart-of-accounts and journal modules: the two
relational tables, the next database-assigned ids, and the clock used for
`new Date()`. -/
structure LedgerState where
  accounts : List Account
  entries : List JournalEntry
  nextAccountId : Nat
  nextEntryId : Nat
  now : Nat
deriving Repr, DecidableEq

/-- Record `{debit, credit, balance}` returned by
`accountModel.calculateBalance`. -/
structure BalanceInfo where
  debit : Int
  credit : Int
  balance : Int
deriving Repr, DecidableEq

/-- Date filter shared by the Prisma queries: `gte` when a start date is
given, `lte` when an end date is given. -/
def dateInRange (d : Nat) (startDate endDate : Option Nat) : Bool :=
  (match startDate with
   | some s => decide (s ≤ d)
   | none => true) &&
  (match endDate with
   | some e => decide (d ≤ e)
   | none => true)

namespace AccountModel

/-- Embeds `prisma.account.findUnique` on the id. -/
def findById (accounts : List Account) (accountId : Nat) : Option Account :=
  accounts.find? (fun a => a.id == accountId)

/-- Embeds `prisma.account.findUnique` on the unique code. -/
def findByCode (accounts : List Account) (code : String) : Option Account :=
  accounts.find? (fun a => a.code == code)

/-- Embeds `accountModel.findAllActive`: all accounts with `isActive: true`. -/
def findAllActive (accounts : List Account) : List Account :=
  accounts.filter (fun a => a.isActive)

/-- Embeds `accountModel.getChildren(parentId)`: accounts with the given
`parentId` and `isActive: true`. -/
def getChildren (accounts : List Account) (parentId : Nat) : List Account :=
  accounts.filter (fun a => a.parentId == some parentId && a.isActive)

/-- Embeds `accountModel.hasJournalEntries(accountId)`: counts entries on the
debit side and on the credit side (no date filter) and tests whether the
sum is positive. -/
def hasJournalEntries (entries : List JournalEntry) (accountId : Nat) : Bool :=
  let debitCount := (entries.filter (fun e => e.debitAccountId == accountId)).length
  let creditCount := (entries.filter (fun e => e.creditAccountId == accountId)).length
  decide (debitCount + creditCount > 0)

/-- Embeds `accountModel.calculateBalance(accountId, startDate, endDate)`: sums
the amounts of entries with the account on the debit side and on the
credit side, each restricted by the optional `gte`/`lte` date filter, and
returns `{debit, credit, balance: debit - credit}`. -/
def calculateBalance (entries : List JournalEntry) (accountId : Nat)
    (startDate endDate : Option Nat) : BalanceInfo :=
  let debitEntries := entries.filter
    (fun e => e.debitAccountId == accountId && dateInRange e.date startDate endDate)
  let creditEntries := entries.filter
    (fun e => e.creditAccountId == accountId && dateInRange e.date startDate endDate)
  let totalDebit := (debitEntries.map (fun e => e.amount)).sum
  let totalCredit := (creditEntries.map (fun e => e.amount)).sum
  { debit := totalDebit, credit := totalCredit, balance := totalDebit - totalCredit }

/-- Embeds `accountModel.deleteById(accountId)` (soft delete): sets
`isActive: false` on the row with the given id; Prisma raises P2025 when
the row is missing, rethrown as "Account not found". -/
def deleteById (st : LedgerState) (accountId : Nat) :
    Except String (LedgerState × Account) :=
  match findById st.accounts accountId with
  | none => .error "Account not found"
  | some a =>
    let deactivated : Account := { a with isActive := false }
    let accounts := st.accounts.map
      (fun r => if r.id == accountId then { r with isActive := false } else r)
    .ok ({ st with accounts := accounts }, deactivated)

end AccountModel

namespace JournalModel

/-- Embeds `journalModel.getAccountBalance(accountId)`.  The function takes only
the account id: it aggregates debit and credit sums over ALL entries
(there is no date parameter in its signature), looks the account up for
its `type`, and returns `debit - credit` for ASSET or LIABILITY accounts
and `credit - debit` otherwise.  A missing account makes `account.type`
throw, surfaced as the wrapped error. -/
def getAccountBalance (st : LedgerState) (accountId : Nat) : Except String Int :=
  let debitTotal := ((st.entries.filter
    (fun e => e.debitAccountId == accountId)).map (fun e => e.amount)).sum
  let creditTotal := ((st.entries.filter
    (fun e => e.creditAccountId == accountId)).map (fun e => e.amount)).sum
  match AccountModel.findById st.accounts accountId with
  | none => .error "Failed to get account balance: cannot read type of null"
  | some account =>
    match account.type with
    | .ASSET => .ok (debitTotal - creditTotal)
    | .LIABILITY => .ok (debitTotal - creditTotal)
    | _ => .ok (creditTotal - debitTotal)

end JournalModel

/-- Input of `journalService.createJournalEntry` (the id is assigned by
the database on insert). -/
structure JournalEntryInput where
  date : Nat
  description : String
  debitAccountId : Nat
  creditAccountId : Nat
  amount : Int
  userId : Nat
deriving Repr, DecidableEq

/-- Patch object accepted by `journalService.updateJournalEntryById`;
absent fields are `none`. -/
structure JournalEntryPatch where
  date : Option Nat := none
  description : Option String := none
  debitAccountId : Option Nat := none
  creditAccountId : Option Nat := none
  amount : Option Int := none
  userId : Option Nat := none
deriving Repr, DecidableEq

namespace JournalService

/-- Embeds `journalService.createJournalEntry(entryData)`: validates that the
debit account exists and is active, that the credit account exists and is
active, that the two account ids differ, and that the amount is positive;
then `journalModel.create` inserts the row with a fresh id. -/
def createJournalEntry (st : LedgerState) (entryData : JournalEntryInput) :
    Except String (LedgerState × JournalEntry) :=
  match AccountModel.findById st.accounts entryData.debitAccountId with
  | none => .error "Debit account not found or inactive"
  | some debitAccount =>
    if !debitAccount.isActive then .error "Debit account not found or inactive"
    else match AccountModel.findById st.accounts entryData.creditAccountId with
      | none => .error "Credit account not found or inactive"
      | some creditAccount =>
        if !creditAccount.isActive then .error "Credit account not found or inactive"
        else if entryData.debitAccountId == entryData.creditAccountId then
          .error "Debit and credit accounts must be different"
        else if entryData.amount ≤ 0 then
          .error "Journal entry amount must be positive"
        else
          let entry : JournalEntry :=
            { id := st.nextEntryId
              date := entryData.date
              description := entryData.description
              debitAccountId := entryData.debitAccountId
              creditAccountId := entryData.creditAccountId
              amount := entryData.amount
              userId := entryData.userId }
          .ok ({ st with entries := st.entries ++ [entry],
                         nextEntryId := st.nextEntryId + 1 }, entry)

/-- Embeds `journalService.getCashAccountCode(paymentMethod)`: object lookup
with default '1001'. -/
def getCashAccountCode (paymentMethod : String) : String :=
  if paymentMethod == "cash" then "1001"
  else if paymentMethod == "card" then "1002"
  else if paymentMethod == "bank_transfer" then "1002"
  else if paymentMethod == "check" then "1003"
  else if paymentMethod == "digital_wallet" then "1004"
  else "1001"

/-- Embeds `journalService.createSaleJournalEntries(saleId, total, paymentMethod,
userId)`: debit the cash/bank account selected by payment method, credit
Sales Revenue '4000', amount = total, date = now. -/
def createSaleJournalEntries (st : LedgerState) (saleId : Nat) (total : Int)
    (paymentMethod : String) (userId : Nat) :
    Except String (LedgerState × JournalEntry) :=
  let cashAccountCode := getCashAccountCode paymentMethod
  let revenueAccountCode := "4000"
  match AccountModel.findByCode st.accounts cashAccountCode,
        AccountModel.findByCode st.accounts revenueAccountCode with
  | some cashAccount, some revenueAccount =>
    createJournalEntry st
      { date := st.now
        description := "Sale transaction - " ++ toString saleId
        debitAccountId := cashAccount.id
        creditAccountId := revenueAccount.id
        amount := total
        userId := userId }
  | _, _ => .error "Required accounts not found for sale transaction"

/-- Embeds `journalService.createPurchaseJournalEntries(purchaseId, total,
userId)`: debit Inventory '1200', credit Accounts Payable '2000',
amount = total. -/
def createPurchaseJournalEntries (st : LedgerState) (purchaseId : Nat)
    (total : Int) (userId : Nat) : Except String (LedgerState × JournalEntry) :=
  let inventoryAccountCode := "1200"
  let accountsPayableCode := "2000"
  match AccountModel.findByCode st.accounts inventoryAccountCode,
        AccountModel.findByCode st.accounts accountsPayableCode with
  | some inventoryAccount, some payableAccount =>
    createJournalEntry st
      { date := st.now
        description := "Purchase transaction - " ++ toString purchaseId
        debitAccountId := inventoryAccount.id
        creditAccountId := payableAccount.id
        amount := total
        userId := userId }
  | _, _ => .error "Required accounts not found for purchase transaction"

/-- Embeds `journalService.createReturnJournalEntries(returnId, total,
paymentMethod, userId)`: debit Sales Revenue '4000', credit the cash/bank
account of the original payment method, amount = total. -/
def createReturnJournalEntries (st : LedgerState) (returnId : Nat)
    (total : Int) (paymentMethod : String) (userId : Nat) :
    Except String (LedgerState × JournalEntry) :=
  let cashAccountCode := getCashAccountCode paymentMethod
  let revenueAccountCode := "4000"
  match AccountModel.findByCode st.accounts cashAccountCode,
        AccountModel.findByCode st.accounts revenueAccountCode with
  | some cashAccount, some revenueAccount =>
    createJournalEntry st
      { date := st.now
        description := "Return transaction - " ++ toString returnId
        debitAccountId := revenueAccount.id
        creditAccountId := cashAccount.id
        amount := total
        userId := userId }
  | _, _ => .error "Required accounts not found for return transaction"

/-- Amount validation of `journalService.updateJournalEntryById`, followed
by its call into `journalModel.updateById` — a method the journal model
does not define, so the call throws a TypeError at runtime. -/
def updateJournalEntryByIdCall (_st : LedgerState) (_entryId : Nat)
    (updateData : JournalEntryPatch) : Except String (LedgerState × JournalEntry) :=
  match updateData.amount with
  | some a =>
    if a ≤ 0 then .error "Journal entry amount must be positive"
    else .error "journalModel.updateById is not a function"
  | none => .error "journalModel.updateById is not a function"

/-- Double-entry pair check of `journalService.updateJournalEntryById`,
applied only when both account ids are present in the patch. -/
def updateJournalEntryByIdTail (st : LedgerState) (entryId : Nat)
    (updateData : JournalEntryPatch) : Except String (LedgerState × JournalEntry) :=
  match updateData.debitAccountId, updateData.creditAccountId with
  | some d, some c =>
    if d == c then .error "Debit and credit accounts must be different"
    else updateJournalEntryByIdCall st entryId updateData
  | _, _ => updateJournalEntryByIdCall st entryId updateData

/-- Credit-account validation of `journalService.updateJournalEntryById`. -/
def updateJournalEntryByIdRest (st : LedgerState) (entryId : Nat)
    (updateData : JournalEntryPatch) : Except String (LedgerState × JournalEntry) :=
  match updateData.creditAccountId with
  | some c =>
    (match AccountModel.findById st.accounts c with
     | none => .error "Credit account not found or inactive"
     | some creditAccount =>
       if !creditAccount.isActive then .error "Credit account not found or inactive"
       else updateJournalEntryByIdTail st entryId updateData)
  | none => updateJournalEntryByIdTail st entryId updateData

/-- Embeds `journalService.updateJournalEntryById(entryId, updateData)`: runs
the account/amount validations on the patch, then calls
`journalModel.updateById` — a method the journal model does NOT define
(journalModel.js only exports findById, findAll, create,
createSaleEntries, getAccountBalance, getEntriesSummary), so the call
`journalModel.updateById(...)` throws a TypeError at runtime and no row
is ever modified. -/
def updateJournalEntryById (st : LedgerState) (entryId : Nat)
    (updateData : JournalEntryPatch) : Except String (LedgerState × JournalEntry) :=
  match updateData.debitAccountId with
  | some d =>
    (match AccountModel.findById st.accounts d with
     | none => .error "Debit account not found or inactive"
     | some debitAccount =>
       if !debitAccount.isActive then .error "Debit account not found or inactive"
       else updateJournalEntryByIdRest st entryId updateData)
  | none => updateJournalEntryByIdRest st entryId updateData

/-- Embeds `journalService.deleteJournalEntryById(entryId)`: delegates to
`journalModel.deleteById`, which journalModel.js does not define, so the
call throws a TypeError at runtime and no row is ever removed. -/
def deleteJournalEntryById (_st : LedgerState) (_entryId : Nat) :
    Except String (LedgerState × JournalEntry) :=
  .error "journalModel.deleteById is not a function"

/-- Embeds `journalService.getAccountBalance(accountId, startDate, endDate)`:
forwards to `journalModel.getAccountBalance(accountId, startDate,
endDate)` — but the model function's signature takes only the account id,
so the two date arguments are silently discarded. -/
def getAccountBalance (st : LedgerState) (accountId : Nat)
    (_startDate _endDate : Option Nat) : Except String Int :=
  JournalModel.getAccountBalance st accountId

end JournalService

/-- Input of `chartOfAccountsService.createAccount` (the id is assigned by
the database on insert; `isActive` defaults to true in the schema). -/
structure AccountInput where
  code : String
  name : String
  type : AccountType
  parentId : Option Nat := none
  isActive : Bool := true
deriving Repr, DecidableEq

/-- Patch object accepted by `chartOfAccountsService.updateAccountById`;
absent fields are `none`.  `parentId := some none` corresponds to an
explicit null in the request body. -/
structure AccountPatch where
  code : Option String := none
  name : Option String := none
  type : Option AccountType := none
  parentId : Option (Option Nat) := none
  isActive : Option Bool := none
deriving Repr, DecidableEq

namespace AccountModel

/-- Field-wise merge performed by `prisma.account.update({data})`. -/
def applyPatch (a : Account) (p : AccountPatch) : Account :=
  { a with
    code := p.code.getD a.code
    name := p.name.getD a.name
    type := p.type.getD a.type
    parentId := match p.parentId with | some v => v | none => a.parentId
    isActive := p.isActive.getD a.isActive }

/-- Embeds `accountModel.updateById(accountId, updateData)`: Prisma raises
P2025 for a missing row ("Account not found"); otherwise the row is
merged with the patch. -/
def updateById (st : LedgerState) (accountId : Nat) (p : AccountPatch) :
    Except String (LedgerState × Account) :=
  match findById st.accounts accountId with
  | none => .error "Account not found"
  | some a =>
    let updated := applyPatch a p
    let accounts := st.accounts.map
      (fun r => if r.id == accountId then applyPatch r p else r)
    .ok ({ st with accounts := accounts }, updated)

/-- Embeds `accountModel.create(accountData)`: the database enforces the
unique constraint on `code` (P2002, rethrown as a conflict error) and
assigns the next id. -/
def create (st : LedgerState) (accountData : AccountInput) :
    Except String (LedgerState × Account) :=
  if (st.accounts.find? (fun a => a.code == accountData.code)).isSome then
    .error "Account with this code already exists"
  else
    let account : Account :=
      { id := st.nextAccountId
        code := accountData.code
        name := accountData.name
        type := accountData.type
        parentId := accountData.parentId
        isActive := accountData.isActive }
    .ok ({ st with accounts := st.accounts ++ [account],
                   nextAccountId := st.nextAccountId + 1 }, account)

end AccountModel

/-- Row of the trial balance report built by
`chartOfAccountsService.getTrialBalance`. -/
structure TrialBalanceRow where
  id : Nat
  code : String
  name : String
  type : AccountType
  debit : Int
  credit : Int
  balance : Int
deriving Repr, DecidableEq

/-- Grand totals of the trial balance. -/
structure TrialBalanceTotals where
  debit : Int
  credit : Int
deriving Repr, DecidableEq

/-- Trial balance report: date, per-account rows, grand totals. -/
structure TrialBalance where
  date : Nat
  accounts : List TrialBalanceRow
  totals : TrialBalanceTotals
deriving Repr, DecidableEq

namespace ChartOfAccountsService

/-- Embeds `chartOfAccountsService.createAccount(accountData)`: code
uniqueness check (skipped for a falsy code), parent existence check, then
`accountModel.create`. -/
def createAccount (st : LedgerState) (accountData : AccountInput) :
    Except String (LedgerState × Account) :=
  if accountData.code ≠ "" &&
     (AccountModel.findByCode st.accounts accountData.code).isSome then
    .error "Account with this code already exists"
  else
    match accountData.parentId with
    | some p =>
      (match AccountModel.findById st.accounts p with
       | none => .error "Parent account not found"
       | some _ => AccountModel.create st accountData)
    | none => AccountModel.create st accountData

/-- Embeds `chartOfAccountsService.updateAccountById(accountId, updateData)`:
code-collision check against a different account (skipped for a falsy
code), parent existence and self-parent checks (skipped for a falsy
parentId), then `accountModel.updateById`. -/
def updateAccountById (st : LedgerState) (accountId : Nat) (p : AccountPatch) :
    Except String (LedgerState × Account) :=
  let codeConflict :=
    match p.code with
    | some c =>
      c ≠ "" &&
      (match AccountModel.findByCode st.accounts c with
       | some existing => existing.id ≠ accountId
       | none => false)
    | none => false
  if codeConflict then .error "Account with this code already exists"
  else
    match p.parentId with
    | some (some parent) =>
      (match AccountModel.findById st.accounts parent with
       | none => .error "Parent account not found"
       | some _ =>
         if parent == accountId then .error "Account cannot be its own parent"
         else AccountModel.updateById st accountId p)
    | _ => AccountModel.updateById st accountId p

/-- Embeds `chartOfAccountsService.deleteAccountById(accountId)`: refuses
when `accountModel.getChildren` is non-empty or
`accountModel.hasJournalEntries` holds, otherwise soft-deletes via
`accountModel.deleteById`. -/
def deleteAccountById (st : LedgerState) (accountId : Nat) :
    Except String (LedgerState × Account) :=
  if (AccountModel.getChildren st.accounts accountId).length > 0 then
    .error "Cannot delete account with child accounts"
  else if AccountModel.hasJournalEntries st.entries accountId then
    .error "Cannot delete account with journal entries"
  else
    AccountModel.deleteById st accountId

/-- Debit-normal test of the trial balance:
`['ASSET', 'EXPENSE'].includes(account.type)`. -/
def isDebitNormalType (t : AccountType) : Bool :=
  match t with
  | .ASSET => true
  | .EXPENSE => true
  | _ => false

/-- Embeds `chartOfAccountsService.getTrialBalance(asOfDate)`: for every
active account, `accountModel.calculateBalance(id, null, asOfDate)`; the
row balance is sign-adjusted by the normal-balance rule and the raw
debit/credit sums are accumulated into the grand totals. -/
def getTrialBalance (st : LedgerState) (asOfDate : Nat) : TrialBalance :=
  let accounts := AccountModel.findAllActive st.accounts
  let rows := accounts.map (fun account =>
    let balance := AccountModel.calculateBalance st.entries account.id none (some asOfDate)
    let isDebitNormal := isDebitNormalType account.type
    { id := account.id
      code := account.code
      name := account.name
      type := account.type
      debit := balance.debit
      credit := balance.credit
      balance := if isDebitNormal then balance.debit - balance.credit
                 else balance.credit - balance.debit : TrialBalanceRow })
  { date := asOfDate
    accounts := rows
    totals :=
      { debit := (rows.map (fun r => r.debit)).sum
        credit := (rows.map (fun r => r.credit)).sum } }

end ChartOfAccountsService

/-- Movement type enumeration of the `cashMovement` table. -/
inductive MovementType where
  | OPENING
  | SALE
  | RETURN
  | DEPOSIT
  | WITHDRAWAL
  | CLOSING
deriving Repr, DecidableEq

/-- A row of the `cashMovement` table.  `createdAt` is the insertion
timestamp, which orders the append-only log. -/
structure CashMovement where
  id : Nat
  cashRegisterId : Nat
  type : MovementType
  amount : Int
  description : String
  reference : Option Nat
  userId : Nat
  createdAt : Nat
deriving Repr, DecidableEq

/-- A row of the `cashRegister` table. -/
structure CashRegister where
  id : Nat
  name : String
  isOpen : Bool
  openingBalance : Int
  currentBalance : Int
  openedAt : Option Nat
  closedAt : Option Nat
  openedById : Option Nat
  closedById : Option Nat
deriving Repr, DecidableEq

/-- State owned by the cash register session manager: the two tables, the
next movement id and the clock used for `new Date()`.  The clock advances
by one after every state-changing operation, so `createdAt` stamps are
strictly increasing across operations, as real wall-clock insertion
timestamps are. -/
structure CashState where
  registers : List CashRegister
  movements : List CashMovement
  nextMovementId : Nat
  now : Nat
deriving Repr, DecidableEq

/-- Reconciliation summary returned by
`cashRegisterService.closeCashRegister`. -/
structure ClosureSummary where
  openingBalance : Int
  expectedBalance : Int
  actualBalance : Int
  difference : Int
deriving Repr, DecidableEq

namespace CashRegisterModel

/-- Embeds `cashRegisterModel.findById(registerId)`. -/
def findById (registers : List CashRegister) (registerId : Nat) : Option CashRegister :=
  registers.find? (fun r => r.id == registerId)

/-- Embeds `cashRegisterModel.findOpenByUserId(userId)`: the open register
whose `openedById` is the given user, if any. -/
def findOpenByUserId (registers : List CashRegister) (userId : Nat) : Option CashRegister :=
  registers.find? (fun r => r.isOpen && r.openedById == some userId)

/-- Embeds `cashRegisterModel.updateById(registerId, data)`: merges the
update into the row with the given id (the id column is unique). -/
def updateById (registers : List CashRegister) (registerId : Nat)
    (f : CashRegister → CashRegister) : List CashRegister :=
  registers.map (fun r => if r.id == registerId then f r else r)

end CashRegisterModel

namespace CashMovementModel

/-- Embeds `cashMovementModel.findByDateRange(startDate, endDate,
registerId)`: movements with `createdAt` in `[startDate, endDate]`,
filtered by register, ordered by `createdAt` ascending (the log is stored
in insertion order and `createdAt` stamps increase across operations, so
the stored order is already ascending). -/
def findByDateRange (movements : List CashMovement) (startDate endDate : Nat)
    (registerId : Nat) : List CashMovement :=
  movements.filter (fun m =>
    decide (startDate ≤ m.createdAt) && decide (m.createdAt ≤ endDate) &&
    m.cashRegisterId == registerId)

end CashMovementModel

namespace CashRegisterService

/-- Embeds `cashRegisterService.getCashRegisterById(registerId)`. -/
def getCashRegisterById (st : CashState) (registerId : Nat) :
    Except String CashRegister :=
  match CashRegisterModel.findById st.registers registerId with
  | none => .error "Cash register not found"
  | some r => .ok r

/-- Replay step of `calculateExpectedBalance`: OPENING and CLOSING are
no-ops, SALE and DEPOSIT add, RETURN and WITHDRAWAL subtract. -/
def movementStep (balance : Int) (m : CashMovement) : Int :=
  match m.type with
  | .OPENING => balance
  | .SALE => balance + m.amount
  | .DEPOSIT => balance + m.amount
  | .RETURN => balance - m.amount
  | .WITHDRAWAL => balance - m.amount
  | .CLOSING => balance

/-- Embeds `cashRegisterService.calculateExpectedBalance(registerId)`:
returns 0 when the register has never been opened; otherwise replays the
movements logged between `openedAt` and now over the opening balance. -/
def calculateExpectedBalance (st : CashState) (registerId : Nat) :
    Except String Int :=
  match getCashRegisterById st registerId with
  | .error e => .error e
  | .ok cashRegister =>
    match cashRegister.openedAt with
    | none => .ok 0
    | some openedAt =>
      let movements :=
        CashMovementModel.findByDateRange st.movements openedAt st.now registerId
      .ok (movements.foldl movementStep cashRegister.openingBalance)

/-- Embeds `cashRegisterService.openCashRegister(registerId,
openingBalance, userId)`: fails if the register is missing, already open,
the user already has an open register, or the opening balance is
negative; otherwise opens the register and logs an OPENING movement. -/
def openCashRegister (st : CashState) (registerId : Nat) (openingBalance : Int)
    (userId : Nat) : Except String CashState :=
  match getCashRegisterById st registerId with
  | .error e => .error e
  | .ok cashRegister =>
    if cashRegister.isOpen then .error "Cash register is already open"
    else if (CashRegisterModel.findOpenByUserId st.registers userId).isSome then
      .error "User already has an open cash register"
    else if openingBalance < 0 then .error "Opening balance cannot be negative"
    else
      let registers := CashRegisterModel.updateById st.registers registerId
        (fun r => { r with
          isOpen := true
          openingBalance := openingBalance
          currentBalance := openingBalance
          openedAt := some st.now
          openedById := some userId })
      let movement : CashMovement :=
        { id := st.nextMovementId
          cashRegisterId := registerId
          type := .OPENING
          amount := openingBalance
          description := "Cash register opened"
          reference := none
          userId := userId
          createdAt := st.now }
      .ok { registers := registers
            movements := st.movements ++ [movement]
            nextMovementId := st.nextMovementId + 1
            now := st.now + 1 }

/-- Embeds `cashRegisterService.closeCashRegister(registerId,
actualBalance, userId)`: fails if the register is missing, not open, the
user is not the opener, or the actual balance is negative; otherwise
computes the expected balance from the movement log, records a CLOSING
movement carrying both figures in its description, closes the register
with `currentBalance := actualBalance`, and returns the reconciliation
summary. -/
def closeCashRegister (st : CashState) (registerId : Nat) (actualBalance : Int)
    (userId : Nat) : Except String (CashState × ClosureSummary) :=
  match getCashRegisterById st registerId with
  | .error e => .error e
  | .ok cashRegister =>
    if !cashRegister.isOpen then .error "Cash register is not open"
    else if cashRegister.openedById != some userId then
      .error "Only the user who opened the register can close it"
    else if actualBalance < 0 then .error "Actual balance cannot be negative"
    else
      match calculateExpectedBalance st registerId with
      | .error e => .error e
      | .ok expectedBalance =>
        let movement : CashMovement :=
          { id := st.nextMovementId
            cashRegisterId := registerId
            type := .CLOSING
            amount := actualBalance
            description := "Cash register closed. Expected: " ++
              toString expectedBalance ++ ", Actual: " ++ toString actualBalance
            reference := none
            userId := userId
            createdAt := st.now }
        let registers := CashRegisterModel.updateById st.registers registerId
          (fun r => { r with
            isOpen := false
            currentBalance := actualBalance
            closedAt := some st.now
            closedById := some userId })
        .ok ({ registers := registers
               movements := st.movements ++ [movement]
               nextMovementId := st.nextMovementId + 1
               now := st.now + 1 },
             { openingBalance := cashRegister.openingBalance
               expectedBalance := expectedBalance
               actualBalance := actualBalance
               difference := actualBalance - expectedBalance })

/-- Embeds `cashRegisterService.recordDeposit(registerId, amount,
description, userId)`: requires the register open and a positive amount;
appends a DEPOSIT movement and increments `currentBalance`. -/
def recordDeposit (st : CashState) (registerId : Nat) (amount : Int)
    (description : String) (userId : Nat) :
    Except String (CashState × CashMovement) :=
  match getCashRegisterById st registerId with
  | .error e => .error e
  | .ok cashRegister =>
    if !cashRegister.isOpen then .error "Cash register is not open"
    else if amount ≤ 0 then .error "Deposit amount must be positive"
    else
      let movement : CashMovement :=
        { id := st.nextMovementId
          cashRegisterId := registerId
          type := .DEPOSIT
          amount := amount
          description := if description == "" then "Cash deposit" else description
          reference := none
          userId := userId
          createdAt := st.now }
      let registers := CashRegisterModel.updateById st.registers registerId
        (fun r => { r with currentBalance := cashRegister.currentBalance + amount })
      .ok ({ registers := registers
             movements := st.movements ++ [movement]
             nextMovementId := st.nextMovementId + 1
             now := st.now + 1 }, movement)

/-- Embeds `cashRegisterService.recordWithdrawal(registerId, amount,
description, userId)`: requires the register open, a positive amount and
sufficient balance; appends a WITHDRAWAL movement and decrements
`currentBalance`. -/
def recordWithdrawal (st : CashState) (registerId : Nat) (amount : Int)
    (description : String) (userId : Nat) :
    Except String (CashState × CashMovement) :=
  match getCashRegisterById st registerId with
  | .error e => .error e
  | .ok cashRegister =>
    if !cashRegister.isOpen then .error "Cash register is not open"
    else if amount ≤ 0 then .error "Withdrawal amount must be positive"
    else if cashRegister.currentBalance < amount then
      .error "Insufficient cash register balance"
    else
      let movement : CashMovement :=
        { id := st.nextMovementId
          cashRegisterId := registerId
          type := .WITHDRAWAL
          amount := amount
          description := if description == "" then "Cash withdrawal" else description
          reference := none
          userId := userId
          createdAt := st.now }
      let registers := CashRegisterModel.updateById st.registers registerId
        (fun r => { r with currentBalance := cashRegister.currentBalance - amount })
      .ok ({ registers := registers
             movements := st.movements ++ [movement]
             nextMovementId := st.nextMovementId + 1
             now := st.now + 1 }, movement)

/-- Embeds `cashRegisterService.recordSale(registerId, amount, reference,
userId)`: requires the register open and a positive amount; appends a
SALE movement and increments `currentBalance`. -/
def recordSale (st : CashState) (registerId : Nat) (amount : Int)
    (reference : Option Nat) (userId : Nat) :
    Except String (CashState × CashMovement) :=
  match getCashRegisterById st registerId with
  | .error e => .error e
  | .ok cashRegister =>
    if !cashRegister.isOpen then .error "Cash register is not open"
    else if amount ≤ 0 then .error "Sale amount must be positive"
    else
      let movement : CashMovement :=
        { id := st.nextMovementId
          cashRegisterId := registerId
          type := .SALE
          amount := amount
          description := "Sale transaction"
          reference := reference
          userId := userId
          createdAt := st.now }
      let registers := CashRegisterModel.updateById st.registers registerId
        (fun r => { r with currentBalance := cashRegister.currentBalance + amount })
      .ok ({ registers := registers
             movements := st.movements ++ [movement]
             nextMovementId := st.nextMovementId + 1
             now := st.now + 1 }, movement)

/-- Embeds `cashRegisterService.recordReturn(registerId, amount,
reference, userId)`: requires the register open, a positive amount and
sufficient balance; appends a RETURN movement and decrements
`currentBalance`. -/
def recordReturn (st : CashState) (registerId : Nat) (amount : Int)
    (reference : Option Nat) (userId : Nat) :
    Except String (CashState × CashMovement) :=
  match getCashRegisterById st registerId with
  | .error e => .error e
  | .ok cashRegister =>
    if !cashRegister.isOpen then .error "Cash register is not open"
    else if amount ≤ 0 then .error "Return amount must be positive"
    else if cashRegister.currentBalance < amount then
      .error "Insufficient cash register balance for return"
    else
      let movement : CashMovement :=
        { id := st.nextMovementId
          cashRegisterId := registerId
          type := .RETURN
          amount := amount
          description := "Return transaction"
          reference := reference
          userId := userId
          createdAt := st.now }
      let registers := CashRegisterModel.updateById st.registers registerId
        (fun r => { r with currentBalance := cashRegister.currentBalance - amount })
      .ok ({ registers := registers
             movements := st.movements ++ [movement]
             nextMovementId := st.nextMovementId + 1
             now := st.now + 1 }, movement)

end CashRegisterService

/-- A movement-recording call against an open register: one of
recordDeposit, recordWithdrawal, recordSale, recordReturn with its
arguments. -/
inductive RecordOp where
  | deposit (amount : Int) (description : String) (userId : Nat)
  | withdrawal (amount : Int) (description : String) (userId : Nat)
  | sale (amount : Int) (reference : Option Nat) (userId : Nat)
  | ret (amount : Int) (reference : Option Nat) (userId : Nat)
deriving Repr, DecidableEq

/-- Applies one movement-recording call, keeping the resulting state. -/
def applyRecordOp (st : CashState) (registerId : Nat) (op : RecordOp) :
    Except String CashState :=
  match op with
  | .deposit amount description userId =>
    (CashRegisterService.recordDeposit st registerId amount description userId).map
      (fun p => p.1)
  | .withdrawal amount description userId =>
    (CashRegisterService.recordWithdrawal st registerId amount description userId).map
      (fun p => p.1)
  | .sale amount reference userId =>
    (CashRegisterService.recordSale st registerId amount reference userId).map
      (fun p => p.1)
  | .ret amount reference userId =>
    (CashRegisterService.recordReturn st registerId amount reference userId).map
      (fun p => p.1)

/-- Applies a sequence of movement-recording calls, stopping at the first
failure. -/
def applyRecordOps (st : CashState) (registerId : Nat) :
    List RecordOp → Except String CashState
  | [] => .ok st
  | op :: rest =>
    match applyRecordOp st registerId op with
    | .error e => .error e
    | .ok st' => applyRecordOps st' registerId rest

/-- A row of the `product` table (the fields the sale and return flows
touch). -/
structure Product where
  id : Nat
  sku : String
  barcode : Option String
  name : String
  price : Int
  stock : Int
  isActive : Bool
deriving Repr, DecidableEq

/-- A processed sale (or return) line item. -/
structure SaleItem where
  productId : Nat
  quantity : Int
  unitPrice : Int
  total : Int
deriving Repr, DecidableEq

/-- A row of the `sale` table.  `paymentMethod` is not part of the data
passed by `saleModel.create`, so it is null on created rows. -/
structure Sale where
  id : Nat
  customerId : Option Nat
  userId : Nat
  total : Int
  tax : Int
  discount : Int
  discountType : String
  paymentMethod : Option String
  items : List SaleItem
deriving Repr, DecidableEq

/-- A row of the `return` table (the fields the refund flow touches). -/
structure ReturnObj where
  id : Nat
  saleId : Nat
  userId : Nat
  total : Int
  items : List SaleItem
deriving Repr, DecidableEq

/-- One line of the checkout request: product designator (id, SKU or
barcode), quantity, optional unit-price override. -/
structure SaleItemInput where
  productId : Option Nat := none
  sku : Option String := none
  barcode : Option String := none
  quantity : Int
  unitPrice : Option Int := none
deriving Repr, DecidableEq

/-- Checkout request body of `saleService.createSale`. -/
structure SaleData where
  items : List SaleItemInput
  customerId : Option Nat := none
  userId : Nat
  discount : Int := 0
  discountType : String := "fixed"
  tax : Int := 0
  paymentMethod : String
  paymentAmount : Int
deriving Repr, DecidableEq

/-- Payment block attached to the checkout response. -/
structure PaymentInfo where
  method : String
  amount : Int
  change : Int
  subtotal : Int
  discountAmount : Int
  tax : Int
deriving Repr, DecidableEq

/-- The state the sale and return flows act on: products, customers,
sales, returns, and the accounting ledger they post into. -/
structure World where
  products : List Product
  customers : List Nat
  sales : List Sale
  returns : List ReturnObj
  ledger : LedgerState
  nextSaleId : Nat
deriving Repr, DecidableEq

/-- JavaScript `x || d` on an optional number: null, undefined and 0 fall
back to the default. -/
def jsOrInt (o : Option Int) (d : Int) : Int :=
  match o with
  | some v => if v == 0 then d else v
  | none => d

namespace SaleModel

/-- Embeds `saleModel.create(saleData)`: recomputes the subtotal from the
items, re-applies the discount rule to the passed discount value, stores
the recomputed total, and appends the sale row with a fresh id. -/
def create (w : World) (customerId : Option Nat) (userId : Nat) (tax : Int)
    (discount : Int) (discountType : String) (items : List SaleItem) :
    World × Sale :=
  let subtotal := (items.map (fun item => item.quantity * item.unitPrice)).sum
  let discountAmount :=
    if discountType == "percentage" then subtotal * discount / 100 else discount
  let total := subtotal - discountAmount + tax
  let sale : Sale :=
    { id := w.nextSaleId
      customerId := customerId
      userId := userId
      total := total
      tax := tax
      discount := discount
      discountType := discountType
      paymentMethod := none
      items := items }
  ({ w with sales := w.sales ++ [sale], nextSaleId := w.nextSaleId + 1 }, sale)

/-- Embeds `saleModel.updateProductStock(items)`: decrements each sold
product's stock by the sold quantity. -/
def updateProductStock (products : List Product) (items : List SaleItem) :
    List Product :=
  items.foldl
    (fun (ps : List Product) item => ps.map (fun p =>
      if p.id == item.productId then { p with stock := p.stock - item.quantity } else p))
    products

end SaleModel

namespace ReturnModel

/-- Embeds `returnModel.updateProductStock(items)`: increments each
returned product's stock by the returned quantity. -/
def updateProductStock (products : List Product) (items : List SaleItem) :
    List Product :=
  items.foldl
    (fun (ps : List Product) item => ps.map (fun p =>
      if p.id == item.productId then { p with stock := p.stock + item.quantity } else p))
    products

end ReturnModel

namespace SaleService

/-- Item-processing loop of `saleService.createSale`: resolves each item
to a product by id, SKU or barcode, checks activity and stock, applies
the `unitPrice || product.price` fallback, and accumulates the processed
items and the subtotal. -/
def processSaleItems (products : List Product) :
    List SaleItemInput → Except String (List SaleItem × Int)
  | [] => .ok ([], 0)
  | item :: rest =>
    let foundProduct : Option Product :=
      match item.productId with
      | some pid => products.find? (fun p => p.id == pid)
      | none =>
        match item.sku with
        | some s => products.find? (fun p => p.sku == s)
        | none =>
          match item.barcode with
          | some b => products.find? (fun p => p.barcode == some b)
          | none => none
    match foundProduct with
    | none => .error "Product not found"
    | some product =>
      if !product.isActive then .error ("Product is inactive: " ++ product.name)
      else if product.stock < item.quantity then
        .error ("Insufficient stock for " ++ product.name)
      else
        let unitPrice := jsOrInt item.unitPrice product.price
        let itemTotal := item.quantity * unitPrice
        match processSaleItems products rest with
        | .error e => .error e
        | .ok (items, subtotal) =>
          .ok ({ productId := product.id
                 quantity := item.quantity
                 unitPrice := unitPrice
                 total := itemTotal : SaleItem } :: items,
               itemTotal + subtotal)

/-- Item-processing, totals, payment check, sale insert and stock update
of `saleService.createSale` — the part after the customer check. -/
def createSaleBusinessItems (w : World) (saleData : SaleData) :
    Except String (World × Sale × PaymentInfo) :=
  match processSaleItems w.products saleData.items with
  | .error e => .error e
  | .ok (processedItems, subtotal) =>
    let discountAmount :=
      if saleData.discountType == "percentage" then
        subtotal * saleData.discount / 100
      else saleData.discount
    let total := subtotal - discountAmount + saleData.tax
    if saleData.paymentAmount < total then
      .error "Payment amount is less than total"
    else
      let change := saleData.paymentAmount - total
      let (w1, sale) := SaleModel.create w saleData.customerId saleData.userId
        saleData.tax discountAmount saleData.discountType processedItems
      let w2 := { w1 with
        products := SaleModel.updateProductStock w1.products processedItems }
      .ok (w2, sale,
        { method := saleData.paymentMethod
          amount := saleData.paymentAmount
          change := change
          subtotal := subtotal
          discountAmount := discountAmount
          tax := saleData.tax })

/-- Business part of `saleService.createSale(saleData)`, up to and
including the sale insert and the stock update — everything before the
accounting side-effect: customer check, item processing, discount and
total computation, payment check, `saleModel.create`,
`saleModel.updateProductStock`. -/
def createSaleBusiness (w : World) (saleData : SaleData) :
    Except String (World × Sale × PaymentInfo) :=
  match saleData.customerId with
  | some c =>
    if !(w.customers.contains c) then .error "Customer not found"
    else createSaleBusinessItems w saleData
  | none => createSaleBusinessItems w saleData

/-- Embeds `saleService.createSale(saleData)`: the business part, then the
journal posting wrapped in try/catch — a posting failure is logged and
the sale is returned unchanged ("Don't fail the sale if journal entry
creation fails"). -/
def createSale (w : World) (saleData : SaleData) :
    Except String (World × Sale × PaymentInfo) :=
  match createSaleBusiness w saleData with
  | .error e => .error e
  | .ok (w1, sale, payment) =>
    let total := payment.subtotal - payment.discountAmount + payment.tax
    let ledger :=
      match JournalService.createSaleJournalEntries w1.ledger sale.id total
        saleData.paymentMethod saleData.userId with
      | .ok (l, _) => l
      | .error _ => w1.ledger
    .ok ({ w1 with ledger := ledger }, sale, payment)

end SaleService

namespace ReturnService

/-- Embeds `returnService.processRefund(returnObj, sale)`: restocks the
returned items, then posts the reversing journal entries inside
try/catch — a posting failure is logged and the refund completes without
error ("Don't fail the return if journal entry creation fails").
`sale.paymentMethod` is read from the sale row (null on rows written by
`saleModel.create`, which makes the account lookup fall back to the cash
code). -/
def processRefund (w : World) (returnObj : ReturnObj) (sale : Sale) : World :=
  let w1 := { w with
    products := ReturnModel.updateProductStock w.products returnObj.items }
  match JournalService.createReturnJournalEntries w1.ledger returnObj.id
    returnObj.total (sale.paymentMethod.getD "") returnObj.userId with
  | .ok (l, _) => { w1 with ledger := l }
  | .error _ => w1

end ReturnService

/-! ### General list summation lemmas used by the trial balance proofs -/

theorem sum_filter_map_ite (l : List JournalEntry) (p : JournalEntry → Bool) :
    ((l.filter p).map (fun e => e.amount)).sum =
      (l.map (fun e => if p e then e.amount else 0)).sum := by
  induction l with
  | nil => simp
  | cons x xs ih =>
    by_cases h : p x <;> simp [List.filter_cons, h, ih]

theorem sum_map_swap (accts : List Account) (l : List JournalEntry)
    (f : Account → JournalEntry → Int) :
    (accts.map (fun a => (l.map (fun e => f a e)).sum)).sum =
      (l.map (fun e => (accts.map (fun a => f a e)).sum)).sum := by
  induction accts with
  | nil => simp
  | cons a as ih =>
    simp only [List.map_cons, List.sum_cons, ih, ← List.sum_map_add]

theorem sum_ite_id_of_not_mem (ids : List Nat) (k : Nat) (v : Int)
    (h : k ∉ ids) : (ids.map (fun i => if k = i then v else 0)).sum = 0 := by
  induction ids with
  | nil => simp
  | cons i is ih =>
    have hne : k ≠ i := fun hk => h (hk ▸ List.mem_cons_self i is)
    have hnm : k ∉ is := fun hk => h (List.mem_cons_of_mem i hk)
    simp [hne, ih hnm]

theorem sum_ite_id_of_mem (ids : List Nat) (k : Nat) (v : Int)
    (hmem : k ∈ ids) (hnd : ids.Nodup) :
    (ids.map (fun i => if k = i then v else 0)).sum = v := by
  induction ids with
  | nil => cases hmem
  | cons i is ih =>
    rcases List.mem_cons.mp hmem with h | h
    · subst h
      have : k ∉ is := (List.nodup_cons.mp hnd).1
      simp [sum_ite_id_of_not_mem is k v this]
    · have hne : k ≠ i := by
        rintro rfl
        exact (List.nodup_cons.mp hnd).1 h
      simp [hne, ih h (List.nodup_cons.mp hnd).2]

/-! ### C1 -/

/-- Ledger used to exercise `journalService.getAccountBalance`: a cash
asset account (id 1), a revenue account (id 2), and a single entry of 200
dated 10 debiting cash. -/
def c1St : LedgerState :=
  { accounts :=
      [ { id := 1, code := "1000", name := "Cash", type := .ASSET,
          parentId := none, isActive := true },
        { id := 2, code := "4000", name := "Sales Revenue", type := .REVENUE,
          parentId := none, isActive := true } ]
    entries :=
      [ { id := 1, date := 10, description := "sale", debitAccountId := 1,
          creditAccountId := 2, amount := 200, userId := 7 } ]
    nextAccountId := 3, nextEntryId := 2, now := 50 }

/-- C1.  The claim says `journalService.getAccountBalance(accountId, from,
to)` returns a `{debit, credit, balance}` record restricted to `[from,
to]`, raw.  The code forwards to `journalModel.getAccountBalance`, whose
signature takes only the account id: the window `[20, 30]` (which
contains no entry) is silently discarded and a single sign-adjusted
number covering all dates comes back — while
`accountModel.calculateBalance`, the function that actually implements
the claimed behaviour, returns the zero record over the same window. -/
theorem c1_accountBalance_code_bug :
    JournalService.getAccountBalance c1St 1 (some 20) (some 30) = .ok 200 ∧
    AccountModel.calculateBalance c1St.entries 1 (some 20) (some 30) =
      { debit := 0, credit := 0, balance := 0 } ∧
    AccountModel.calculateBalance c1St.entries 1 none none =
      { debit := 200, credit := 0, balance := 200 } :=
  ⟨rfl, rfl, rfl⟩

/-! ### C2 -/

/-- Ledger used to compare the two sign-adjustment rules: a LIABILITY
account (id 2) with one 100 credit, and an EXPENSE account (id 3) with
one 50 debit. -/
def c2St : LedgerState :=
  { accounts :=
      [ { id := 1, code := "1000", name := "Cash", type := .ASSET,
          parentId := none, isActive := true },
        { id := 2, code := "2100", name := "Loan", type := .LIABILITY,
          parentId := none, isActive := true },
        { id := 3, code := "5000", name := "Rent", type := .EXPENSE,
          parentId := none, isActive := true },
        { id := 4, code := "4000", name := "Sales Revenue", type := .REVENUE,
          parentId := none, isActive := true } ]
    entries :=
      [ { id := 1, date := 5, description := "loan received",
          debitAccountId := 1, creditAccountId := 2, amount := 100, userId := 7 },
        { id := 2, date := 6, description := "rent paid",
          debitAccountId := 3, creditAccountId := 1, amount := 50, userId := 7 } ]
    nextAccountId := 5, nextEntryId := 3, now := 50 }

/-- C2.  The claim says every signed balance applies the per-type
normal-balance rule (debit − credit for ASSET/EXPENSE, credit − debit for
LIABILITY/EQUITY/REVENUE).  The trial balance does; the journal engine's
`journalModel.getAccountBalance` instead branches on ASSET/LIABILITY, so
for the LIABILITY account it reports −100 where the rule (and the trial
balance row) gives +100, and for the EXPENSE account it reports −50 where
the rule gives +50. -/
theorem c2_normal_balance_code_bug :
    JournalModel.getAccountBalance c2St 2 = .ok (-100) ∧
    ((ChartOfAccountsService.getTrialBalance c2St 20).accounts.find?
      (fun r => r.id == 2)).map (fun r => r.balance) = some 100 ∧
    JournalModel.getAccountBalance c2St 3 = .ok (-50) ∧
    ((ChartOfAccountsService.getTrialBalance c2St 20).accounts.find?
      (fun r => r.id == 3)).map (fun r => r.balance) = some 50 :=
  ⟨rfl, rfl, rfl, rfl⟩

/-! ### C3 -/

/-- The empty ledger the system starts from. -/
def emptyLedger : LedgerState :=
  { accounts := [], entries := [], nextAccountId := 1, nextEntryId := 1, now := 0 }

/-- A ledger state reached through the system's own operations: create a
cash account and a revenue account, post one balanced entry of 100, then
deactivate the revenue account through `updateAccountById` (which, unlike
`deleteAccountById`, performs no journal-entry check). -/
def c3Build : Except String LedgerState := do
  let (s1, _) ← ChartOfAccountsService.createAccount emptyLedger
    { code := "1000", name := "Cash", type := .ASSET }
  let (s2, _) ← ChartOfAccountsService.createAccount s1
    { code := "4000", name := "Sales Revenue", type := .REVENUE }
  let (s3, _) ← JournalService.createJournalEntry s2
    { date := 5, description := "sale", debitAccountId := 1, creditAccountId := 2,
      amount := 100, userId := 7 }
  let (s4, _) ← ChartOfAccountsService.updateAccountById s3 2 { isActive := some false }
  pure s4

/-- C3 counterexample.  A state reachable through the system's operations
on which the trial balance's grand totals differ: after deactivating an
account that has journal entries via `updateAccountById`, the trial
balance (which only iterates active accounts) reports totals debit = 100
and credit = 0. -/
theorem c3_trial_totals_counterexample :
    c3Build.map (fun st =>
      ((ChartOfAccountsService.getTrialBalance st 10).totals.debit,
       (ChartOfAccountsService.getTrialBalance st 10).totals.credit)) =
      .ok (100, 0) ∧ (100 : Int) ≠ 0 :=
  ⟨rfl, by decide⟩

/-- Per-side total of the trial balance: under distinct account ids, if
every entry inside the date window has its account (on the given side)
among the active accounts, the side total collapses to the plain sum of
the windowed amounts. -/
theorem trialBalance_side_total (st : LedgerState) (asOf : Nat)
    (side : JournalEntry → Nat)
    (hnodup : (st.accounts.map (fun a => a.id)).Nodup)
    (hside : ∀ e ∈ st.entries, e.date ≤ asOf →
      ∃ a ∈ st.accounts, a.isActive = true ∧ a.id = side e) :
    ((AccountModel.findAllActive st.accounts).map
      (fun a => ((st.entries.filter
        (fun e => side e == a.id && dateInRange e.date none (some asOf))).map
          (fun e => e.amount)).sum)).sum =
    (st.entries.map (fun e => if e.date ≤ asOf then e.amount else 0)).sum := by
  have hrw : (fun a : Account => ((st.entries.filter
      (fun e => side e == a.id && dateInRange e.date none (some asOf))).map
        (fun e => e.amount)).sum) =
      (fun a : Account => (st.entries.map
        (fun e => if side e == a.id && dateInRange e.date none (some asOf) then
          e.amount else 0)).sum) :=
    funext fun a => sum_filter_map_ite st.entries _
  rw [hrw, sum_map_swap]
  have hactive_nodup : ((AccountModel.findAllActive st.accounts).map
      (fun a => a.id)).Nodup := by
    refine List.Nodup.sublist ?_ hnodup
    exact List.Sublist.map _ (List.filter_sublist st.accounts)
  refine congrArg List.sum (List.map_congr_left ?_)
  intro e he
  by_cases hdd : e.date ≤ asOf
  · have hcond : dateInRange e.date none (some asOf) = true := by
      simp [dateInRange, hdd]
    obtain ⟨a, ha_mem, ha_act, ha_id⟩ := hside e he hdd
    have ha_active : a ∈ AccountModel.findAllActive st.accounts :=
      List.mem_filter.mpr ⟨ha_mem, ha_act⟩
    have hid_mem : side e ∈ (AccountModel.findAllActive st.accounts).map
        (fun a => a.id) := List.mem_map.mpr ⟨a, ha_active, ha_id⟩
    have hsum := sum_ite_id_of_mem
      ((AccountModel.findAllActive st.accounts).map (fun a => a.id))
      (side e) e.amount hid_mem hactive_nodup
    rw [List.map_map] at hsum
    simpa [hcond, hdd, Function.comp, beq_iff_eq] using hsum
  · have hcond : dateInRange e.date none (some asOf) = false := by
      simp [dateInRange, hdd]
    simp [hcond, hdd]

/-- C3 amended.  `trialBalance(asOf).totals.debit == totals.credit` holds
for every ledger state whose account ids are distinct and in which every
journal entry dated ≤ asOf references active accounts on both sides.  (As
the counterexample shows, states reachable through the system's
operations can violate the second condition by deactivating a posted-to
account via `updateAccountById`, so the invariant does not hold for every
reachable state.) -/
theorem c3_trial_totals_amended (st : LedgerState) (asOf : Nat)
    (hnodup : (st.accounts.map (fun a => a.id)).Nodup)
    (hdebit : ∀ e ∈ st.entries, e.date ≤ asOf →
      ∃ a ∈ st.accounts, a.isActive = true ∧ a.id = e.debitAccountId)
    (hcredit : ∀ e ∈ st.entries, e.date ≤ asOf →
      ∃ a ∈ st.accounts, a.isActive = true ∧ a.id = e.creditAccountId) :
    (ChartOfAccountsService.getTrialBalance st asOf).totals.debit =
      (ChartOfAccountsService.getTrialBalance st asOf).totals.credit := by
  have hdeb := trialBalance_side_total st asOf
    (fun e => e.debitAccountId) hnodup hdebit
  have hcred := trialBalance_side_total st asOf
    (fun e => e.creditAccountId) hnodup hcredit
  show ((ChartOfAccountsService.getTrialBalance st asOf).accounts.map
      (fun r => r.debit)).sum =
    ((ChartOfAccountsService.getTrialBalance st asOf).accounts.map
      (fun r => r.credit)).sum
  simp only [ChartOfAccountsService.getTrialBalance, List.map_map,
    AccountModel.calculateBalance] at hdeb hcred ⊢
  exact hdeb.trans hcred.symm

/-- Balanced ledger used to instantiate the amended trial-balance
theorem. -/
def c3WitnessSt : LedgerState :=
  { accounts :=
      [ { id := 1, code := "1000", name := "Cash", type := .ASSET,
          parentId := none, isActive := true },
        { id := 2, code := "4000", name := "Sales Revenue", type := .REVENUE,
          parentId := none, isActive := true } ]
    entries :=
      [ { id := 1, date := 5, description := "sale", debitAccountId := 1,
          creditAccountId := 2, amount := 100, userId := 7 } ]
    nextAccountId := 3, nextEntryId := 2, now := 50 }

/-- Witness for the amended trial-balance theorem at a concrete balanced
ledger. -/
theorem c3_trial_totals_witness :
    (ChartOfAccountsService.getTrialBalance c3WitnessSt 10).totals.debit =
      (ChartOfAccountsService.getTrialBalance c3WitnessSt 10).totals.credit :=
  c3_trial_totals_amended c3WitnessSt 10 (by decide) (by decide) (by decide)

/-! ### C6 -/

theorem createJournalEntry_ok_shape {st : LedgerState} {d : JournalEntryInput}
    {st' : LedgerState} {out : JournalEntry}
    (h : JournalService.createJournalEntry st d = .ok (st', out)) :
    st'.entries = st.entries ++ [out] ∧
    out = { id := st.nextEntryId, date := d.date, description := d.description,
            debitAccountId := d.debitAccountId,
            creditAccountId := d.creditAccountId,
            amount := d.amount, userId := d.userId } := by
  unfold JournalService.createJournalEntry at h
  repeat' split at h
  all_goals simp_all
  obtain ⟨h1, h2⟩ := h
  rw [← h1, ← h2]

theorem updateJournalEntryById_never_ok (st : LedgerState) (entryId : Nat)
    (p : JournalEntryPatch) (r : LedgerState × JournalEntry) :
    JournalService.updateJournalEntryById st entryId p ≠ .ok r := by
  unfold JournalService.updateJournalEntryById
    JournalService.updateJournalEntryByIdRest
    JournalService.updateJournalEntryByIdTail
    JournalService.updateJournalEntryByIdCall
  intro h
  repeat' split at h
  all_goals simp_all

/-- One of the journal engine's state-changing endpoints with its
arguments: manual entry creation, entry update, entry deletion (the
remaining endpoints are reads). -/
inductive JournalOp where
  | createEntry (input : JournalEntryInput)
  | updateEntry (entryId : Nat) (patch : JournalEntryPatch)
  | deleteEntry (entryId : Nat)
deriving Repr, DecidableEq

/-- State after one journal-engine endpoint call: the new state on
success, the unchanged state on a thrown error. -/
def applyJournalOp (st : LedgerState) (op : JournalOp) : LedgerState :=
  match op with
  | .createEntry input =>
    match JournalService.createJournalEntry st input with
    | .ok (st', _) => st'
    | .error _ => st
  | .updateEntry entryId p =>
    match JournalService.updateJournalEntryById st entryId p with
    | .ok (st', _) => st'
    | .error _ => st
  | .deleteEntry entryId =>
    match JournalService.deleteJournalEntryById st entryId with
    | .ok (st', _) => st'
    | .error _ => st

/-- C6.  Journal entries are immutable under every journal-engine
operation: `createJournalEntry` only appends, and both
`updateJournalEntryById` and `deleteJournalEntryById` always throw (their
calls into `journalModel.updateById` / `journalModel.deleteById` hit
methods the model does not define), so every entry present before any
operation is still present, with all its fields, afterwards. -/
theorem c6_entries_immutable (st : LedgerState) (op : JournalOp)
    (e : JournalEntry) (he : e ∈ st.entries) :
    e ∈ (applyJournalOp st op).entries := by
  cases op with
  | createEntry input =>
    cases h : JournalService.createJournalEntry st input with
    | error msg => simp [applyJournalOp, h, he]
    | ok res =>
      obtain ⟨st', out⟩ := res
      have hsh := (createJournalEntry_ok_shape h).1
      simp [applyJournalOp, h, hsh, he]
  | updateEntry entryId p =>
    cases h : JournalService.updateJournalEntryById st entryId p with
    | error msg => simp [applyJournalOp, h, he]
    | ok res => exact absurd h (updateJournalEntryById_never_ok st entryId p res)
  | deleteEntry entryId =>
    simp [applyJournalOp, JournalService.deleteJournalEntryById, he]

/-- Ledger used to instantiate the immutability theorem. -/
def c6St : LedgerState :=
  { accounts :=
      [ { id := 1, code := "1000", name := "Cash", type := .ASSET,
          parentId := none, isActive := true },
        { id := 2, code := "4000", name := "Sales Revenue", type := .REVENUE,
          parentId := none, isActive := true } ]
    entries :=
      [ { id := 1, date := 5, description := "sale", debitAccountId := 1,
          creditAccountId := 2, amount := 100, userId := 7 } ]
    nextAccountId := 3, nextEntryId := 2, now := 50 }

/-- Witness: the posted entry survives an update attempt against it. -/
theorem c6_entries_immutable_witness :
    ({ id := 1, date := 5, description := "sale", debitAccountId := 1,
       creditAccountId := 2, amount := 100, userId := 7 : JournalEntry }) ∈
      (applyJournalOp c6St (.updateEntry 1 { amount := some 50 })).entries :=
  c6_entries_immutable c6St (.updateEntry 1 { amount := some 50 }) _ (by decide)

/-! ### C7 -/

/-- C7.  The transaction posting rules select exactly the spec's account
pairs: a sale debits the cash/bank account chosen by payment method
(cash→1001, card→1002, bank_transfer→1002, check→1003,
digital_wallet→1004, anything else→1001) and credits Sales Revenue 4000
for the sale total; a purchase debits Inventory 1200 and credits Accounts
Payable 2000 for the purchase total; a return debits Sales Revenue 4000
and credits the cash/bank account of the original payment method for the
return total. -/
theorem c7_posting_rules :
    (JournalService.getCashAccountCode "cash" = "1001" ∧
     JournalService.getCashAccountCode "card" = "1002" ∧
     JournalService.getCashAccountCode "bank_transfer" = "1002" ∧
     JournalService.getCashAccountCode "check" = "1003" ∧
     JournalService.getCashAccountCode "digital_wallet" = "1004") ∧
    (∀ pm : String, pm ≠ "cash" → pm ≠ "card" → pm ≠ "bank_transfer" →
      pm ≠ "check" → pm ≠ "digital_wallet" →
      JournalService.getCashAccountCode pm = "1001") ∧
    (∀ st saleId total pm uid st' entry,
      JournalService.createSaleJournalEntries st saleId total pm uid =
        .ok (st', entry) →
      ∃ cashAccount revenueAccount,
        AccountModel.findByCode st.accounts
          (JournalService.getCashAccountCode pm) = some cashAccount ∧
        AccountModel.findByCode st.accounts "4000" = some revenueAccount ∧
        entry.debitAccountId = cashAccount.id ∧
        entry.creditAccountId = revenueAccount.id ∧
        entry.amount = total) ∧
    (∀ st purchaseId total uid st' entry,
      JournalService.createPurchaseJournalEntries st purchaseId total uid =
        .ok (st', entry) →
      ∃ inventoryAccount payableAccount,
        AccountModel.findByCode st.accounts "1200" = some inventoryAccount ∧
        AccountModel.findByCode st.accounts "2000" = some payableAccount ∧
        entry.debitAccountId = inventoryAccount.id ∧
        entry.creditAccountId = payableAccount.id ∧
        entry.amount = total) ∧
    (∀ st returnId total pm uid st' entry,
      JournalService.createReturnJournalEntries st returnId total pm uid =
        .ok (st', entry) →
      ∃ revenueAccount cashAccount,
        AccountModel.findByCode st.accounts "4000" = some revenueAccount ∧
        AccountModel.findByCode st.accounts
          (JournalService.getCashAccountCode pm) = some cashAccount ∧
        entry.debitAccountId = revenueAccount.id ∧
        entry.creditAccountId = cashAccount.id ∧
        entry.amount = total) := by
  refine ⟨⟨rfl, rfl, rfl, rfl, rfl⟩, ?_, ?_, ?_, ?_⟩
  · intro pm h1 h2 h3 h4 h5
    simp [JournalService.getCashAccountCode, h1, h2, h3, h4, h5]
  · intro st saleId total pm uid st' entry h
    cases hc : AccountModel.findByCode st.accounts
        (JournalService.getCashAccountCode pm) with
    | none => simp [JournalService.createSaleJournalEntries, hc] at h
    | some cashAccount =>
      cases hr : AccountModel.findByCode st.accounts "4000" with
      | none => simp [JournalService.createSaleJournalEntries, hc, hr] at h
      | some revenueAccount =>
        simp only [JournalService.createSaleJournalEntries, hc, hr] at h
        have hout := (createJournalEntry_ok_shape h).2
        exact ⟨cashAccount, revenueAccount, rfl, rfl,
          by rw [hout], by rw [hout], by rw [hout]⟩
  · intro st purchaseId total uid st' entry h
    cases hc : AccountModel.findByCode st.accounts "1200" with
    | none => simp [JournalService.createPurchaseJournalEntries, hc] at h
    | some inventoryAccount =>
      cases hr : AccountModel.findByCode st.accounts "2000" with
      | none => simp [JournalService.createPurchaseJournalEntries, hc, hr] at h
      | some payableAccount =>
        simp only [JournalService.createPurchaseJournalEntries, hc, hr] at h
        have hout := (createJournalEntry_ok_shape h).2
        exact ⟨inventoryAccount, payableAccount, rfl, rfl,
          by rw [hout], by rw [hout], by rw [hout]⟩
  · intro st returnId total pm uid st' entry h
    cases hc : AccountModel.findByCode st.accounts
        (JournalService.getCashAccountCode pm) with
    | none => simp [JournalService.createReturnJournalEntries, hc] at h
    | some cashAccount =>
      cases hr : AccountModel.findByCode st.accounts "4000" with
      | none => simp [JournalService.createReturnJournalEntries, hc, hr] at h
      | some revenueAccount =>
        simp only [JournalService.createReturnJournalEntries, hc, hr] at h
        have hout := (createJournalEntry_ok_shape h).2
        exact ⟨revenueAccount, cashAccount, rfl, rfl,
          by rw [hout], by rw [hout], by rw [hout]⟩

/-- Registry holding all the well-known account codes, used to exercise
the posting rules. -/
def c7St : LedgerState :=
  { accounts :=
      [ { id := 1, code := "1001", name := "Cash on hand", type := .ASSET,
          parentId := none, isActive := true },
        { id := 2, code := "1002", name := "Bank account", type := .ASSET,
          parentId := none, isActive := true },
        { id := 3, code := "1003", name := "Bank - checks", type := .ASSET,
          parentId := none, isActive := true },
        { id := 4, code := "1004", name := "Digital wallet", type := .ASSET,
          parentId := none, isActive := true },
        { id := 5, code := "1200", name := "Inventory", type := .ASSET,
          parentId := none, isActive := true },
        { id := 6, code := "2000", name := "Accounts Payable", type := .LIABILITY,
          parentId := none, isActive := true },
        { id := 7, code := "4000", name := "Sales Revenue", type := .REVENUE,
          parentId := none, isActive := true } ]
    entries := []
    nextAccountId := 8, nextEntryId := 1, now := 40 }

/-- Witness: the three posting rules applied on the concrete registry (a
cash sale of 200, a purchase of 300, a card return of 80). -/
theorem c7_posting_rules_witness :
    (∃ cashAccount revenueAccount,
      AccountModel.findByCode c7St.accounts
        (JournalService.getCashAccountCode "cash") = some cashAccount ∧
      AccountModel.findByCode c7St.accounts "4000" = some revenueAccount ∧
      ({ id := 1, date := 40, description := "Sale transaction - 3",
         debitAccountId := 1, creditAccountId := 7, amount := 200,
         userId := 7 : JournalEntry }).debitAccountId = cashAccount.id ∧
      ({ id := 1, date := 40, description := "Sale transaction - 3",
         debitAccountId := 1, creditAccountId := 7, amount := 200,
         userId := 7 : JournalEntry }).creditAccountId = revenueAccount.id ∧
      ({ id := 1, date := 40, description := "Sale transaction - 3",
         debitAccountId := 1, creditAccountId := 7, amount := 200,
         userId := 7 : JournalEntry }).amount = 200) ∧
    (∃ inventoryAccount payableAccount,
      AccountModel.findByCode c7St.accounts "1200" = some inventoryAccount ∧
      AccountModel.findByCode c7St.accounts "2000" = some payableAccount ∧
      ({ id := 1, date := 40, description := "Purchase transaction - 4",
         debitAccountId := 5, creditAccountId := 6, amount := 300,
         userId := 7 : JournalEntry }).debitAccountId = inventoryAccount.id ∧
      ({ id := 1, date := 40, description := "Purchase transaction - 4",
         debitAccountId := 5, creditAccountId := 6, amount := 300,
         userId := 7 : JournalEntry }).creditAccountId = payableAccount.id ∧
      ({ id := 1, date := 40, description := "Purchase transaction - 4",
         debitAccountId := 5, creditAccountId := 6, amount := 300,
         userId := 7 : JournalEntry }).amount = 300) ∧
    (∃ revenueAccount cashAccount,
      AccountModel.findByCode c7St.accounts "4000" = some revenueAccount ∧
      AccountModel.findByCode c7St.accounts
        (JournalService.getCashAccountCode "card") = some cashAccount ∧
      ({ id := 1, date := 40, description := "Return transaction - 5",
         debitAccountId := 7, creditAccountId := 2, amount := 80,
         userId := 7 : JournalEntry }).debitAccountId = revenueAccount.id ∧
      ({ id := 1, date := 40, description := "Return transaction - 5",
         debitAccountId := 7, creditAccountId := 2, amount := 80,
         userId := 7 : JournalEntry }).creditAccountId = cashAccount.id ∧
      ({ id := 1, date := 40, description := "Return transaction - 5",
         debitAccountId := 7, creditAccountId := 2, amount := 80,
         userId := 7 : JournalEntry }).amount = 80) :=
  ⟨c7_posting_rules.2.2.1 c7St 3 200 "cash" 7 _ _ rfl,
   c7_posting_rules.2.2.2.1 c7St 4 300 7 _ _ rfl,
   c7_posting_rules.2.2.2.2 c7St 5 80 "card" 7 _ _ rfl⟩

/-! ### C9 -/

/-- Chart with a parent account (id 1) whose only child (id 2,
`parentId = 1`) has already been deactivated; no journal entries. -/
def c9St : LedgerState :=
  { accounts :=
      [ { id := 1, code := "1000", name := "Cash", type := .ASSET,
          parentId := none, isActive := true },
        { id := 2, code := "1100", name := "Petty cash", type := .ASSET,
          parentId := some 1, isActive := false } ]
    entries := []
    nextAccountId := 3, nextEntryId := 1, now := 0 }

/-- C9 counterexample.  Account 1 has a child account (row 2 references it
as parent), yet `deleteAccountById` succeeds and deactivates it: the
children check runs `accountModel.getChildren`, which filters on
`isActive: true`, so inactive children are invisible to it. -/
theorem c9_deactivate_counterexample :
    ({ id := 2, code := "1100", name := "Petty cash", type := .ASSET,
       parentId := some 1, isActive := false : Account }) ∈ c9St.accounts ∧
    ChartOfAccountsService.deleteAccountById c9St 1 =
      .ok ({ c9St with accounts :=
        [ { id := 1, code := "1000", name := "Cash", type := .ASSET,
            parentId := none, isActive := false },
          { id := 2, code := "1100", name := "Petty cash", type := .ASSET,
            parentId := some 1, isActive := false } ] },
        { id := 1, code := "1000", name := "Cash", type := .ASSET,
          parentId := none, isActive := false }) :=
  ⟨by decide, rfl⟩

/-- C9 amended.  `deleteAccountById` fails when the account has any
ACTIVE child accounts, or (with none) when any journal entry references
it on either side at any date; for an existing account with no active
children and no entries it succeeds by setting `isActive` to false on the
row, never removing it. -/
theorem c9_deactivate_amended (st : LedgerState) (accountId : Nat) :
    (AccountModel.getChildren st.accounts accountId ≠ [] →
      ChartOfAccountsService.deleteAccountById st accountId =
        .error "Cannot delete account with child accounts") ∧
    (AccountModel.getChildren st.accounts accountId = [] →
      AccountModel.hasJournalEntries st.entries accountId = true →
      ChartOfAccountsService.deleteAccountById st accountId =
        .error "Cannot delete account with journal entries") ∧
    (∀ a, AccountModel.getChildren st.accounts accountId = [] →
      AccountModel.hasJournalEntries st.entries accountId = false →
      AccountModel.findById st.accounts accountId = some a →
      ChartOfAccountsService.deleteAccountById st accountId =
        .ok
          ({ st with accounts := st.accounts.map (fun r =>
              if r.id == accountId then { r with isActive := false } else r) },
           { a with isActive := false })) := by
  refine ⟨?_, ?_, ?_⟩
  · intro h
    unfold ChartOfAccountsService.deleteAccountById
    rw [if_pos (List.length_pos.mpr h)]
  · intro h h2
    simp [ChartOfAccountsService.deleteAccountById, h, h2]
  · intro a h h2 hfind
    simp [ChartOfAccountsService.deleteAccountById, AccountModel.deleteById,
      h, h2, hfind]

/-- Chart with a single active account and no entries, for the successful
soft-delete. -/
def c9WitnessSt : LedgerState :=
  { accounts :=
      [ { id := 1, code := "1000", name := "Cash", type := .ASSET,
          parentId := none, isActive := true } ]
    entries := []
    nextAccountId := 2, nextEntryId := 1, now := 0 }

/-- Witness: deactivating a leaf account with no entries soft-deletes the
row. -/
theorem c9_deactivate_witness :
    ChartOfAccountsService.deleteAccountById c9WitnessSt 1 =
      .ok
        ({ c9WitnessSt with accounts := c9WitnessSt.accounts.map (fun r =>
            if r.id == 1 then { r with isActive := false } else r) },
         { id := 1, code := "1000", name := "Cash", type := .ASSET,
           parentId := none, isActive := false }) :=
  (c9_deactivate_amended c9WitnessSt 1).2.2
    { id := 1, code := "1000", name := "Cash", type := .ASSET,
      parentId := none, isActive := true } rfl rfl rfl

/-! ### C10 -/

/-- C10.  For a register that has never been opened (`openedAt` unset),
`calculateExpectedBalance` returns 0 without consulting the movement log:
the result is `.ok 0` whatever the movements table holds. -/
theorem c10_never_opened_expected_zero (st : CashState) (registerId : Nat)
    (r : CashRegister)
    (hfind : CashRegisterModel.findById st.registers registerId = some r)
    (hopened : r.openedAt = none) :
    ∀ movements : List CashMovement,
      CashRegisterService.calculateExpectedBalance
        { st with movements := movements } registerId = .ok 0 := by
  intro movements
  unfold CashRegisterService.calculateExpectedBalance
    CashRegisterService.getCashRegisterById
  simp [CashRegisterModel.findById] at hfind
  simp [CashRegisterModel.findById, hfind, hopened]

/-- Never-opened register used to instantiate the theorem. -/
def c10St : CashState :=
  { registers :=
      [ { id := 1, name := "Main", isOpen := false, openingBalance := 0,
          currentBalance := 0, openedAt := none, closedAt := none,
          openedById := none, closedById := none } ]
    movements := [], nextMovementId := 1, now := 5 }

/-- Witness: the expected balance of the never-opened register is 0 even
with a stray movement in the log. -/
theorem c10_never_opened_expected_zero_witness :
    CashRegisterService.calculateExpectedBalance
      { c10St with movements :=
        [ { id := 9, cashRegisterId := 1, type := .DEPOSIT, amount := 50,
            description := "stray", reference := none, userId := 3,
            createdAt := 2 } ] } 1 = .ok 0 :=
  c10_never_opened_expected_zero c10St 1
    { id := 1, name := "Main", isOpen := false, openingBalance := 0,
      currentBalance := 0, openedAt := none, closedAt := none,
      openedById := none, closedById := none } rfl rfl
    [ { id := 9, cashRegisterId := 1, type := .DEPOSIT, amount := 50,
        description := "stray", reference := none, userId := 3,
        createdAt := 2 } ]

/-! ### C5 -/

theorem calculateExpectedBalance_exists (st : CashState) (registerId : Nat)
    (r : CashRegister)
    (hfind : CashRegisterModel.findById st.registers registerId = some r) :
    ∃ e, CashRegisterService.calculateExpectedBalance st registerId = .ok e := by
  unfold CashRegisterService.calculateExpectedBalance
    CashRegisterService.getCashRegisterById
  rw [hfind]
  rcases h : r.openedAt with _ | t <;> simp [h]

/-- C5.  Closing an open register with a non-negative counted balance by
the opener succeeds: the reconciliation summary's `difference` is the
counted balance minus the expected balance computed from the movement log
on the pre-close state, a CLOSING movement is appended whose description
carries both figures and whose amount is the counted balance, and the
register ends not open with `currentBalance` set to the counted balance;
closing fails when the register is not open or when the caller is not the
opener. -/
theorem c5_close_reconciliation (st : CashState) (registerId : Nat)
    (actualBalance : Int) (userId : Nat) (r : CashRegister)
    (hfind : CashRegisterModel.findById st.registers registerId = some r) :
    (r.isOpen = true → r.openedById = some userId → 0 ≤ actualBalance →
      ∃ e, CashRegisterService.calculateExpectedBalance st registerId = .ok e ∧
        CashRegisterService.closeCashRegister st registerId actualBalance userId =
          .ok
            ({ registers := CashRegisterModel.updateById st.registers registerId
                 (fun r' =>
                   { r' with
                     isOpen := false, currentBalance := actualBalance,
                     closedAt := some st.now, closedById := some userId })
               movements := st.movements ++
                 [ { id := st.nextMovementId, cashRegisterId := registerId,
                     type := .CLOSING, amount := actualBalance,
                     description := "Cash register closed. Expected: " ++
                       toString e ++ ", Actual: " ++ toString actualBalance,
                     reference := none, userId := userId,
                     createdAt := st.now } ]
               nextMovementId := st.nextMovementId + 1
               now := st.now + 1 },
             { openingBalance := r.openingBalance, expectedBalance := e,
               actualBalance := actualBalance,
               difference := actualBalance - e })) ∧
    (r.isOpen = false →
      CashRegisterService.closeCashRegister st registerId actualBalance userId =
        .error "Cash register is not open") ∧
    (r.isOpen = true → r.openedById ≠ some userId →
      CashRegisterService.closeCashRegister st registerId actualBalance userId =
        .error "Only the user who opened the register can close it") := by
  refine ⟨?_, ?_, ?_⟩
  · intro hopen hby hbal
    obtain ⟨e, he⟩ := calculateExpectedBalance_exists st registerId r hfind
    refine ⟨e, he, ?_⟩
    simp only [CashRegisterService.closeCashRegister,
      CashRegisterService.getCashRegisterById, hfind, hopen, Bool.not_true,
      Bool.false_eq_true, if_false, hby, bne_self_eq_false, he,
      if_neg (not_lt.mpr hbal)]
  · intro hclosed
    simp [CashRegisterService.closeCashRegister,
      CashRegisterService.getCashRegisterById, hfind, hclosed]
  · intro hopen hne
    have hbne : (r.openedById != some userId) = true := bne_iff_ne.mpr hne
    simp [CashRegisterService.closeCashRegister,
      CashRegisterService.getCashRegisterById, hfind, hopen, hbne]

/-- Open register after the spec's concrete session (open 100, sale 50,
withdrawal 30): `currentBalance` 120, three logged movements. -/
def c5St : CashState :=
  { registers :=
      [ { id := 1, name := "Main", isOpen := true, openingBalance := 100,
          currentBalance := 120, openedAt := some 0, closedAt := none,
          openedById := some 7, closedById := none } ]
    movements :=
      [ { id := 1, cashRegisterId := 1, type := .OPENING, amount := 100,
          description := "Cash register opened", reference := none,
          userId := 7, createdAt := 0 },
        { id := 2, cashRegisterId := 1, type := .SALE, amount := 50,
          description := "Sale transaction", reference := some 11,
          userId := 7, createdAt := 1 },
        { id := 3, cashRegisterId := 1, type := .WITHDRAWAL, amount := 30,
          description := "bank drop", reference := none, userId := 7,
          createdAt := 2 } ]
    nextMovementId := 4, now := 3 }

/-- Witness: closing the concrete session with a counted balance of 120
reconciles with difference 0. -/
theorem c5_close_reconciliation_witness :
    CashRegisterService.closeCashRegister c5St 1 120 7 =
      .ok
        ({ registers :=
             [ { id := 1, name := "Main", isOpen := false,
                 openingBalance := 100, currentBalance := 120,
                 openedAt := some 0, closedAt := some 3,
                 openedById := some 7, closedById := some 7 } ]
           movements := c5St.movements ++
             [ { id := 4, cashRegisterId := 1, type := .CLOSING, amount := 120,
                 description := "Cash register closed. Expected: 120, Actual: 120",
                 reference := none, userId := 7, createdAt := 3 } ]
           nextMovementId := 5
           now := 4 },
         { openingBalance := 100, expectedBalance := 120, actualBalance := 120,
           difference := 0 }) := by
  obtain ⟨e, he, hc⟩ :=
    (c5_close_reconciliation c5St 1 120 7
      { id := 1, name := "Main", isOpen := true, openingBalance := 100,
        currentBalance := 120, openedAt := some 0, closedAt := none,
        openedById := some 7, closedById := none } rfl).1 rfl rfl (by decide)
  have h120 : CashRegisterService.calculateExpectedBalance c5St 1 = .ok 120 := rfl
  rw [h120] at he
  injection he with he'
  subst he'
  exact hc

/-! ### C4 -/

/-- Invariant tying the incrementally maintained `currentBalance` of an
open register to the balance replayed from its movement log: all logged
movements predate the clock, the register is open with an `openedAt`
before the clock, and replaying the session movements over the opening
balance yields `currentBalance`. -/
def CashInv (registerId : Nat) (st : CashState) : Prop :=
  (∀ m ∈ st.movements, m.createdAt < st.now) ∧
  ∃ r, CashRegisterModel.findById st.registers registerId = some r ∧
    r.isOpen = true ∧
    ∃ t0, r.openedAt = some t0 ∧ t0 < st.now ∧
      (CashMovementModel.findByDateRange st.movements t0 st.now
        registerId).foldl CashRegisterService.movementStep r.openingBalance =
        r.currentBalance

theorem findById_updateById (registers : List CashRegister) (registerId : Nat)
    (f : CashRegister → CashRegister) (hf : ∀ r, (f r).id = r.id) :
    CashRegisterModel.findById
      (CashRegisterModel.updateById registers registerId f) registerId =
      (CashRegisterModel.findById registers registerId).map f := by
  induction registers with
  | nil => rfl
  | cons r rs ih =>
    unfold CashRegisterModel.updateById CashRegisterModel.findById
    simp only [List.map_cons, List.find?_cons]
    cases hb : (r.id == registerId) with
    | false =>
      rw [if_neg (by simp), hb]
      exact ih
    | true =>
      have hb' : ((f r).id == registerId) = true := by rw [hf r]; exact hb
      rw [if_pos rfl, hb']
      rfl

theorem findByDateRange_now_succ (movements : List CashMovement)
    (t0 n registerId : Nat) (h : ∀ m ∈ movements, m.createdAt < n) :
    CashMovementModel.findByDateRange movements t0 (n + 1) registerId =
      CashMovementModel.findByDateRange movements t0 n registerId := by
  unfold CashMovementModel.findByDateRange
  apply List.filter_congr
  intro m hm
  have hlt := h m hm
  have h1 : (decide (m.createdAt ≤ n)) = true := by
    simpa using Nat.le_of_lt hlt
  have h2 : (decide (m.createdAt ≤ n + 1)) = true := by
    simpa using Nat.le_succ_of_le (Nat.le_of_lt hlt)
  rw [h1, h2]

theorem findByDateRange_append_one (movements : List CashMovement)
    (t0 e registerId : Nat) (mv : CashMovement)
    (ht : t0 ≤ mv.createdAt) (he : mv.createdAt ≤ e)
    (hrid : mv.cashRegisterId = registerId) :
    CashMovementModel.findByDateRange (movements ++ [mv]) t0 e registerId =
      CashMovementModel.findByDateRange movements t0 e registerId ++ [mv] := by
  unfold CashMovementModel.findByDateRange
  rw [List.filter_append]
  congr 1
  simp [ht, he, hrid]

theorem findByDateRange_nil_of_before (movements : List CashMovement)
    (t0 e registerId : Nat) (h : ∀ m ∈ movements, m.createdAt < t0) :
    CashMovementModel.findByDateRange movements t0 e registerId = [] := by
  unfold CashMovementModel.findByDateRange
  refine List.filter_eq_nil_iff.mpr ?_
  intro m hm
  simp [Nat.not_le.mpr (h m hm)]

theorem session_extend (st : CashState) (registerId t0 : Nat)
    (mv : CashMovement)
    (hclock : ∀ m ∈ st.movements, m.createdAt < st.now)
    (ht0 : t0 < st.now)
    (hmv_rid : mv.cashRegisterId = registerId) (hmv_t : mv.createdAt = st.now) :
    CashMovementModel.findByDateRange (st.movements ++ [mv]) t0 (st.now + 1)
      registerId =
      CashMovementModel.findByDateRange st.movements t0 st.now registerId
        ++ [mv] := by
  rw [findByDateRange_append_one st.movements t0 (st.now + 1) registerId mv
    (by rw [hmv_t]; exact Nat.le_of_lt ht0)
    (by rw [hmv_t]; exact Nat.le_succ _) hmv_rid]
  rw [findByDateRange_now_succ st.movements t0 st.now registerId hclock]

theorem open_establishes_inv (st st' : CashState) (registerId : Nat)
    (openingBalance : Int) (userId : Nat)
    (hclock : ∀ m ∈ st.movements, m.createdAt < st.now)
    (h : CashRegisterService.openCashRegister st registerId openingBalance
      userId = .ok st') :
    CashInv registerId st' := by
  cases hfind : CashRegisterModel.findById st.registers registerId with
  | none =>
    simp [CashRegisterService.openCashRegister,
      CashRegisterService.getCashRegisterById, hfind] at h
  | some r0 =>
    simp only [CashRegisterService.openCashRegister,
      CashRegisterService.getCashRegisterById, hfind] at h
    by_cases hisopen : r0.isOpen = true
    · rw [if_pos hisopen] at h
      simp at h
    · rw [if_neg hisopen] at h
      by_cases huser : (CashRegisterModel.findOpenByUserId st.registers
          userId).isSome = true
      · rw [if_pos huser] at h
        simp at h
      · rw [if_neg huser] at h
        by_cases hob : openingBalance < 0
        · rw [if_pos hob] at h
          simp at h
        · rw [if_neg hob] at h
          simp only [Except.ok.injEq] at h
          subst h
          constructor
          · intro m hm
            rcases List.mem_append.mp hm with hold | hnew
            · exact Nat.lt_succ_of_lt (hclock m hold)
            · simp only [List.mem_singleton] at hnew
              subst hnew
              exact Nat.lt_succ_self _
          · have hfind' := findById_updateById st.registers registerId
              (fun r =>
                { r with
                  isOpen := true, openingBalance := openingBalance,
                  currentBalance := openingBalance, openedAt := some st.now,
                  openedById := some userId }) (fun r => rfl)
            rw [hfind] at hfind'
            refine ⟨_, hfind', rfl, st.now, rfl, Nat.lt_succ_self _, ?_⟩
            rw [findByDateRange_append_one _ _ _ _ _ (Nat.le_refl _)
              (Nat.le_succ _) rfl,
              findByDateRange_nil_of_before _ _ _ _ hclock]
            simp [CashRegisterService.movementStep]

theorem applyRecordOp_preserves_inv (st st' : CashState) (registerId : Nat)
    (op : RecordOp) (hinv : CashInv registerId st)
    (h : applyRecordOp st registerId op = .ok st') :
    CashInv registerId st' := by
  obtain ⟨hclock, r, hfind, hopen, t0, hopenedAt, ht0, hreplay⟩ := hinv
  cases op with
  | deposit amount description userId =>
    simp only [applyRecordOp, CashRegisterService.recordDeposit,
      CashRegisterService.getCashRegisterById, hfind, hopen, Bool.not_true,
      Bool.false_eq_true, if_false] at h
    by_cases hamt : amount ≤ 0
    · simp [hamt, Except.map] at h
    · simp only [if_neg hamt, Except.map, Except.ok.injEq] at h
      subst h
      refine ⟨?_, ?_⟩
      · intro m hm
        rcases List.mem_append.mp hm with hold | hnew
        · exact Nat.lt_succ_of_lt (hclock m hold)
        · simp only [List.mem_singleton] at hnew
          subst hnew
          exact Nat.lt_succ_self _
      · have hfind' := findById_updateById st.registers registerId
          (fun r' => { r' with currentBalance := r.currentBalance + amount })
          (fun r' => rfl)
        rw [hfind] at hfind'
        refine ⟨_, hfind', hopen, t0, hopenedAt, Nat.lt_succ_of_lt ht0, ?_⟩
        rw [session_extend st registerId t0 _ hclock ht0 rfl rfl,
          List.foldl_append]
        simp [hreplay, CashRegisterService.movementStep]
  | withdrawal amount description userId =>
    simp only [applyRecordOp, CashRegisterService.recordWithdrawal,
      CashRegisterService.getCashRegisterById, hfind, hopen, Bool.not_true,
      Bool.false_eq_true, if_false] at h
    by_cases hamt : amount ≤ 0
    · simp [hamt, Except.map] at h
    · by_cases hbal : r.currentBalance < amount
      · simp [hamt, hbal, Except.map] at h
      · simp only [if_neg hamt, if_neg hbal, Except.map, Except.ok.injEq] at h
        subst h
        refine ⟨?_, ?_⟩
        · intro m hm
          rcases List.mem_append.mp hm with hold | hnew
          · exact Nat.lt_succ_of_lt (hclock m hold)
          · simp only [List.mem_singleton] at hnew
            subst hnew
            exact Nat.lt_succ_self _
        · have hfind' := findById_updateById st.registers registerId
            (fun r' => { r' with currentBalance := r.currentBalance - amount })
            (fun r' => rfl)
          rw [hfind] at hfind'
          refine ⟨_, hfind', hopen, t0, hopenedAt, Nat.lt_succ_of_lt ht0, ?_⟩
          rw [session_extend st registerId t0 _ hclock ht0 rfl rfl,
            List.foldl_append]
          simp [hreplay, CashRegisterService.movementStep]
  | sale amount reference userId =>
    simp only [applyRecordOp, CashRegisterService.recordSale,
      CashRegisterService.getCashRegisterById, hfind, hopen, Bool.not_true,
      Bool.false_eq_true, if_false] at h
    by_cases hamt : amount ≤ 0
    · simp [hamt, Except.map] at h
    · simp only [if_neg hamt, Except.map, Except.ok.injEq] at h
      subst h
      refine ⟨?_, ?_⟩
      · intro m hm
        rcases List.mem_append.mp hm with hold | hnew
        · exact Nat.lt_succ_of_lt (hclock m hold)
        · simp only [List.mem_singleton] at hnew
          subst hnew
          exact Nat.lt_succ_self _
      · have hfind' := findById_updateById st.registers registerId
          (fun r' => { r' with currentBalance := r.currentBalance + amount })
          (fun r' => rfl)
        rw [hfind] at hfind'
        refine ⟨_, hfind', hopen, t0, hopenedAt, Nat.lt_succ_of_lt ht0, ?_⟩
        rw [session_extend st registerId t0 _ hclock ht0 rfl rfl,
          List.foldl_append]
        simp [hreplay, CashRegisterService.movementStep]
  | ret amount reference userId =>
    simp only [applyRecordOp, CashRegisterService.recordReturn,
      CashRegisterService.getCashRegisterById, hfind, hopen, Bool.not_true,
      Bool.false_eq_true, if_false] at h
    by_cases hamt : amount ≤ 0
    · simp [hamt, Except.map] at h
    · by_cases hbal : r.currentBalance < amount
      · simp [hamt, hbal, Except.map] at h
      · simp only [if_neg hamt, if_neg hbal, Except.map, Except.ok.injEq] at h
        subst h
        refine ⟨?_, ?_⟩
        · intro m hm
          rcases List.mem_append.mp hm with hold | hnew
          · exact Nat.lt_succ_of_lt (hclock m hold)
          · simp only [List.mem_singleton] at hnew
            subst hnew
            exact Nat.lt_succ_self _
        · have hfind' := findById_updateById st.registers registerId
            (fun r' => { r' with currentBalance := r.currentBalance - amount })
            (fun r' => rfl)
          rw [hfind] at hfind'
          refine ⟨_, hfind', hopen, t0, hopenedAt, Nat.lt_succ_of_lt ht0, ?_⟩
          rw [session_extend st registerId t0 _ hclock ht0 rfl rfl,
            List.foldl_append]
          simp [hreplay, CashRegisterService.movementStep]

theorem applyRecordOps_preserves_inv (registerId : Nat) (ops : List RecordOp) :
    ∀ st st', CashInv registerId st →
      applyRecordOps st registerId ops = .ok st' → CashInv registerId st' := by
  induction ops with
  | nil =>
    intro st st' hinv h
    simp only [applyRecordOps, Except.ok.injEq] at h
    exact h ▸ hinv
  | cons op rest ih =>
    intro st st' hinv h
    simp only [applyRecordOps] at h
    cases hop : applyRecordOp st registerId op with
    | error msg => rw [hop] at h; simp at h
    | ok st1 =>
      rw [hop] at h
      exact ih st1 st'
        (applyRecordOp_preserves_inv st st1 registerId op hinv hop) h

theorem inv_expected_eq_current (st : CashState) (registerId : Nat)
    (hinv : CashInv registerId st) :
    CashRegisterService.calculateExpectedBalance st registerId =
      (CashRegisterService.getCashRegisterById st registerId).map
        (fun r => r.currentBalance) := by
  obtain ⟨-, r, hfind, -, t0, hopenedAt, -, hreplay⟩ := hinv
  simp [CashRegisterService.calculateExpectedBalance,
    CashRegisterService.getCashRegisterById, hfind, hopenedAt, hreplay,
    Except.map]

/-- C4.  After opening a register and any finite sequence of successful
recordDeposit / recordWithdrawal / recordSale / recordReturn calls
against it, the balance recomputed from the movement log by
`calculateExpectedBalance` equals the incrementally maintained
`currentBalance` of the register. -/
theorem c4_expected_matches_current (st st₂ : CashState) (registerId : Nat)
    (openingBalance : Int) (userId : Nat) (ops : List RecordOp)
    (hclock : ∀ m ∈ st.movements, m.createdAt < st.now)
    (h : (CashRegisterService.openCashRegister st registerId openingBalance
      userId).bind (fun s => applyRecordOps s registerId ops) = .ok st₂) :
    CashRegisterService.calculateExpectedBalance st₂ registerId =
      (CashRegisterService.getCashRegisterById st₂ registerId).map
        (fun r => r.currentBalance) := by
  cases hopen : CashRegisterService.openCashRegister st registerId
      openingBalance userId with
  | error msg => rw [hopen] at h; simp [Except.bind] at h
  | ok s1 =>
    rw [hopen] at h
    simp only [Except.bind] at h
    exact inv_expected_eq_current st₂ registerId
      (applyRecordOps_preserves_inv registerId ops s1 st₂
        (open_establishes_inv st s1 registerId openingBalance userId hclock
          hopen) h)

/-- Fresh closed register, never opened. -/
def c4St0 : CashState :=
  { registers :=
      [ { id := 1, name := "Main", isOpen := false, openingBalance := 0,
          currentBalance := 0, openedAt := none, closedAt := none,
          openedById := none, closedById := none } ]
    movements := [], nextMovementId := 1, now := 0 }

/-- State after opening register 1 with 100, recording a sale of 50 and a
withdrawal of 30. -/
def c4StFinal : CashState :=
  { registers :=
      [ { id := 1, name := "Main", isOpen := true, openingBalance := 100,
          currentBalance := 120, openedAt := some 0, closedAt := none,
          openedById := some 7, closedById := none } ]
    movements :=
      [ { id := 1, cashRegisterId := 1, type := .OPENING, amount := 100,
          description := "Cash register opened", reference := none,
          userId := 7, createdAt := 0 },
        { id := 2, cashRegisterId := 1, type := .SALE, amount := 50,
          description := "Sale transaction", reference := some 11,
          userId := 7, createdAt := 1 },
        { id := 3, cashRegisterId := 1, type := .WITHDRAWAL, amount := 30,
          description := "bank drop", reference := none, userId := 7,
          createdAt := 2 } ]
    nextMovementId := 4, now := 3 }

/-- Witness: after the spec's concrete session the recomputed expected
balance equals the maintained `currentBalance` (both 120). -/
theorem c4_expected_matches_current_witness :
    CashRegisterService.calculateExpectedBalance c4StFinal 1 =
      (CashRegisterService.getCashRegisterById c4StFinal 1).map
        (fun r => r.currentBalance) :=
  c4_expected_matches_current c4St0 c4StFinal 1 100 7
    [RecordOp.sale 50 (some 11) 7, RecordOp.withdrawal 30 "bank drop" 7]
    (by simp [c4St0]) rfl

/-! ### C8 -/

theorem createSaleBusinessItems_mem {w : World} {saleData : SaleData}
    {w1 : World} {sale : Sale} {payment : PaymentInfo}
    (h : SaleService.createSaleBusinessItems w saleData =
      .ok (w1, sale, payment)) : sale ∈ w1.sales := by
  simp only [SaleService.createSaleBusinessItems, SaleModel.create] at h
  repeat' split at h
  all_goals (try exact Except.noConfusion h)
  all_goals
    injection h with h
    injection h with hw h
    injection h with hs hp
    subst hw
    subst hs
    simp

theorem createSaleBusiness_mem {w : World} {saleData : SaleData}
    {w1 : World} {sale : Sale} {payment : PaymentInfo}
    (h : SaleService.createSaleBusiness w saleData = .ok (w1, sale, payment)) :
    sale ∈ w1.sales := by
  unfold SaleService.createSaleBusiness at h
  repeat' split at h
  all_goals first
    | exact Except.noConfusion h
    | exact createSaleBusinessItems_mem h

/-- C8.  The accounting side-effect of a sale or refund is best-effort:
once the business transaction has been created, `createSale` (and
`processRefund`) succeed regardless of the journal posting's outcome, the
created sale (or the return and sale tables) are untouched by the posting
step, and when the posting errors the state is exactly the pre-posting
state — the failure is swallowed and nothing is rolled back. -/
theorem c8_posting_best_effort :
    (∀ w saleData w1 sale payment,
      SaleService.createSaleBusiness w saleData = .ok (w1, sale, payment) →
      ∃ w2, SaleService.createSale w saleData = .ok (w2, sale, payment) ∧
        w2.sales = w1.sales ∧ sale ∈ w2.sales ∧
        (∀ msg, JournalService.createSaleJournalEntries w1.ledger sale.id
          (payment.subtotal - payment.discountAmount + payment.tax)
          saleData.paymentMethod saleData.userId = .error msg → w2 = w1)) ∧
    (∀ w returnObj sale,
      (ReturnService.processRefund w returnObj sale).sales = w.sales ∧
      (ReturnService.processRefund w returnObj sale).returns = w.returns ∧
      (∀ msg, JournalService.createReturnJournalEntries w.ledger returnObj.id
        returnObj.total (sale.paymentMethod.getD "") returnObj.userId =
          .error msg →
        ReturnService.processRefund w returnObj sale =
          { w with
            products := ReturnModel.updateProductStock w.products returnObj.items })) := by
  constructor
  · intro w saleData w1 sale payment h
    have hmem : sale ∈ w1.sales := createSaleBusiness_mem h
    cases hpost : JournalService.createSaleJournalEntries w1.ledger sale.id
        (payment.subtotal - payment.discountAmount + payment.tax)
        saleData.paymentMethod saleData.userId with
    | ok p =>
      obtain ⟨l, e⟩ := p
      refine ⟨{ w1 with ledger := l }, ?_, rfl, hmem, ?_⟩
      · unfold SaleService.createSale
        rw [h]
        simp only [hpost]
      · intro msg hmsg
        exact Except.noConfusion hmsg
    | error msg0 =>
      refine ⟨w1, ?_, rfl, hmem, fun msg hmsg => rfl⟩
      unfold SaleService.createSale
      rw [h]
      simp only [hpost]
  · intro w returnObj sale
    refine ⟨?_, ?_, ?_⟩
    · simp only [ReturnService.processRefund]
      split <;> rfl
    · simp only [ReturnService.processRefund]
      split <;> rfl
    · intro msg hmsg
      simp only [ReturnService.processRefund]
      split
      · rename_i heq
        rw [hmsg] at heq
        exact Except.noConfusion heq
      · rfl

/-- World with one product and an empty ledger (so that journal posting
for the sale necessarily fails: the required account codes are absent). -/
def c8World : World :=
  { products :=
      [ { id := 1, sku := "SKU1", barcode := none, name := "Widget",
          price := 100, stock := 5, isActive := true } ]
    customers := [], sales := [], returns := []
    ledger := emptyLedger, nextSaleId := 1 }

/-- Checkout of two widgets, paid cash. -/
def c8SaleData : SaleData :=
  { items := [ { productId := some 1, quantity := 2 } ]
    userId := 7, paymentMethod := "cash", paymentAmount := 200 }

/-- The sale row produced by the checkout. -/
def c8Sale : Sale :=
  { id := 1, customerId := none, userId := 7, total := 200, tax := 0,
    discount := 0, discountType := "fixed", paymentMethod := none,
    items := [ { productId := 1, quantity := 2, unitPrice := 100,
                 total := 200 } ] }

/-- World state right after the business part of the checkout. -/
def c8W1 : World :=
  { products :=
      [ { id := 1, sku := "SKU1", barcode := none, name := "Widget",
          price := 100, stock := 3, isActive := true } ]
    customers := [], sales := [c8Sale], returns := []
    ledger := emptyLedger, nextSaleId := 2 }

/-- Payment block of the checkout. -/
def c8Payment : PaymentInfo :=
  { method := "cash", amount := 200, change := 0, subtotal := 200,
    discountAmount := 0, tax := 0 }

/-- A processed return of the two widgets. -/
def c8Return : ReturnObj :=
  { id := 1, saleId := 1, userId := 7, total := 200,
    items := [ { productId := 1, quantity := 2, unitPrice := 100,
                 total := 200 } ] }

/-- Witness: on the concrete world whose ledger has no accounts (so the
posting fails), the checkout still succeeds and keeps the sale, and the
refund flow completes with sales/returns untouched. -/
theorem c8_posting_best_effort_witness :
    (∃ w2, SaleService.createSale c8World c8SaleData =
        .ok (w2, c8Sale, c8Payment) ∧
      w2.sales = c8W1.sales ∧ c8Sale ∈ w2.sales ∧
      (∀ msg, JournalService.createSaleJournalEntries c8W1.ledger c8Sale.id
        (c8Payment.subtotal - c8Payment.discountAmount + c8Payment.tax)
        c8SaleData.paymentMethod c8SaleData.userId = .error msg →
        w2 = c8W1)) ∧
    ((ReturnService.processRefund c8World c8Return c8Sale).sales =
        c8World.sales ∧
      (ReturnService.processRefund c8World c8Return c8Sale).returns =
        c8World.returns ∧
      (∀ msg, JournalService.createReturnJournalEntries c8World.ledger
        c8Return.id c8Return.total (c8Sale.paymentMethod.getD "")
        c8Return.userId = .error msg →
        ReturnService.processRefund c8World c8Return c8Sale =
          { c8World with
            products := ReturnModel.updateProductStock c8World.products
              c8Return.items })) :=
  ⟨c8_posting_best_effort.1 c8World c8SaleData c8W1 c8Sale c8Payment rfl,
   c8_posting_best_effort.2 c8World c8Return c8Sale⟩
